import Mathlib

/-!
Formal model of the core of the notebooklm-skill repository:
`plugins/notebooklm/shared/url_validator.py` (class `NotebookLMURLValidator`)
and `plugins/notebooklm/skills/notebooklm/scripts/notebook_manager.py`
(class `NotebookLibrary`), as a shallow embedding in Lean.

Python strings are modelled as lists of characters (`Str`).  The slice of
CPython `urllib.parse.urlparse` exercised by the validator is modelled
faithfully (scheme splitting with lower-casing, authority splitting,
bracket-mismatch `ValueError`, fragment/query splitting, parameter
splitting, tab/CR/LF removal and leading control-character stripping as in
current CPython).  The NFKC-based `_checknetloc` check, which can only fire
for authorities containing non-ASCII characters, is modelled as a no-op:
for such inputs CPython raises a parse error while the model reports an
authority mismatch; both surface as `URLValidationError`.
-/

namespace NotebookLM

abbrev Str := List Char

/-- Characters stripped by Python `str.strip()`: the CPython Unicode
whitespace set (0x09-0x0D, 0x1C-0x1F, space, NEL, NBSP, OGHAM space,
the 0x2000-0x200A range, LS, PS, NNBSP, MMSP, ideographic space). -/
def pyIsSpace (c : Char) : Bool :=
  decide (c.val ∈ [0x09, 0x0A, 0x0B, 0x0C, 0x0D, 0x1C, 0x1D, 0x1E, 0x1F,
      0x20, 0x85, 0xA0, 0x1680, 0x2028, 0x2029, 0x202F, 0x205F, 0x3000] ∨
    (0x2000 ≤ c.val ∧ c.val ≤ 0x200A))

/-- Python `str.strip()`: remove leading and trailing whitespace. -/
def pyStrip (s : Str) : Str :=
  ((s.dropWhile pyIsSpace).reverse.dropWhile pyIsSpace).reverse

/-- `urllib.parse` scheme characters: ASCII letters, digits, `+`, `-`, `.`. -/
def isSchemeChar (c : Char) : Bool :=
  c.isAlpha || c.isDigit || decide (c = '+') || decide (c = '-') || decide (c = '.')

/-- Scheme-splitting step of CPython `urlsplit`: if the text before the
first `:` is a nonempty run of scheme characters whose first character is
an ASCII letter, it is removed and lower-cased; otherwise no scheme is
recognised. -/
def splitScheme (url : Str) : Str × Str :=
  let pre := url.takeWhile (fun c => decide (c ≠ ':'))
  match url.dropWhile (fun c => decide (c ≠ ':')) with
  | [] => ([], url)
  | _ :: rest =>
    if pre ≠ [] ∧ pre.head?.all (fun c => c.isAlpha) ∧ pre.all isSchemeChar
    then (pre.map Char.toLower, rest)
    else ([], url)

/-- `_splitnetloc`: the authority extends to the first `/`, `?` or `#`. -/
def notNetlocDelim (c : Char) : Bool := decide (c ≠ '/' ∧ c ≠ '?' ∧ c ≠ '#')

/-- Mismatched square brackets in the authority make CPython `urlsplit`
raise `ValueError("Invalid IPv6 URL")`. -/
def bracketBad (netloc : Str) : Bool :=
  (netloc.any (fun c => decide (c = '[')) && !(netloc.any (fun c => decide (c = ']')))) ||
  (netloc.any (fun c => decide (c = ']')) && !(netloc.any (fun c => decide (c = '['))))

/-- Split at the first occurrence of `ch`; agrees with Python
`s.split(ch, 1)` whenever `ch` occurs in `s`. -/
def splitFirst (ch : Char) (s : Str) : Str × Str :=
  (s.takeWhile (fun c => decide (c ≠ ch)), (s.dropWhile (fun c => decide (c ≠ ch))).tail)

structure SplitResult where
  scheme : Str
  netloc : Str
  path : Str
  query : Str
  fragment : Str
deriving DecidableEq, Repr

/-- Characters deleted outright by CPython `urlsplit`
(`_UNSAFE_URL_BYTES_TO_REMOVE` = tab, CR, LF). -/
def isUnsafeByte (c : Char) : Bool :=
  decide (c = '\t') || decide (c = '\r') || decide (c = '\n')

/-- The sanitisation CPython `urlsplit` applies before parsing: strip
leading C0-control/space characters, then delete every tab, CR and LF. -/
def urlClean (url : Str) : Str :=
  (url.dropWhile (fun c => decide (c.val ≤ 0x20))).filter (fun c => !isUnsafeByte c)

/-- Authority-splitting step of CPython `urlsplit`: only when the
remainder starts with `//` is an authority recognised (`_splitnetloc`). -/
def splitNetlocStep (rest : Str) : Str × Str :=
  if rest.take 2 = ['/', '/'] then
    ((rest.drop 2).takeWhile notNetlocDelim, (rest.drop 2).dropWhile notNetlocDelim)
  else ([], rest)

/-- Fragment-splitting step: `if '#' in url: url, fragment = url.split('#', 1)`. -/
def splitFragStep (s : Str) : Str × Str :=
  if s.any (fun c => decide (c = '#')) then splitFirst '#' s else (s, [])

/-- Query-splitting step: `if '?' in url: url, query = url.split('?', 1)`. -/
def splitQueryStep (s : Str) : Str × Str :=
  if s.any (fun c => decide (c = '?')) then splitFirst '?' s else (s, [])

/-- CPython `urllib.parse.urlsplit` (errors are the `ValueError`s it can
raise). -/
def urlsplit (url0 : Str) : Except String SplitResult :=
  let url1 := urlClean url0
  let sr := splitScheme url1
  let nr := splitNetlocStep sr.2
  if bracketBad nr.1 then .error "Invalid IPv6 URL"
  else
    let fr := splitFragStep nr.2
    let qr := splitQueryStep fr.1
    .ok ⟨sr.1, nr.1, qr.1, qr.2, fr.2⟩

/-- The `uses_params` scheme list of `urllib.parse`. -/
def usesParams (scheme : Str) : Bool :=
  decide (scheme ∈ (["", "ftp", "hdl", "prospero", "http", "imap", "https",
    "shttp", "rtsp", "rtspu", "sip", "sips", "mms", "sftp", "tel"].map String.toList))

/-- CPython `_splitparams`: split `;params` off the last path segment
(callers guarantee `;` occurs in `u`). -/
def splitParams (u : Str) : Str × Str :=
  if u.any (fun c => decide (c = '/')) then
    let r := u.reverse
    let afterSlash := (r.takeWhile (fun c => decide (c ≠ '/'))).reverse
    let beforeIncl := (r.dropWhile (fun c => decide (c ≠ '/'))).reverse
    if afterSlash.any (fun c => decide (c = ';')) then
      (beforeIncl ++ afterSlash.takeWhile (fun c => decide (c ≠ ';')),
       (afterSlash.dropWhile (fun c => decide (c ≠ ';'))).tail)
    else (u, [])
  else splitFirst ';' u

structure ParseResult where
  scheme : Str
  netloc : Str
  path : Str
  params : Str
  query : Str
  fragment : Str
deriving DecidableEq, Repr

/-- CPython `urllib.parse.urlparse`: `urlsplit` plus parameter splitting
for schemes in `uses_params`. -/
def urlparse (url : Str) : Except String ParseResult :=
  match urlsplit url with
  | .error e => .error e
  | .ok r =>
    if usesParams r.scheme && r.path.any (fun c => decide (c = ';')) then
      let pp := splitParams r.path
      .ok ⟨r.scheme, r.netloc, pp.1, pp.2, r.query, r.fragment⟩
    else .ok ⟨r.scheme, r.netloc, r.path, [], r.query, r.fragment⟩

/-- CPython `urllib.parse.urlunsplit`. -/
def urlunsplit (scheme netloc url query fragment : Str) : Str :=
  let url2 := if netloc ≠ [] ∨ (url ≠ [] ∧ url.take 2 = ['/', '/'])
              then '/' :: '/' :: netloc ++
                   (if url ≠ [] ∧ url.head? ≠ some '/' then '/' :: url else url)
              else url
  let url3 := if scheme ≠ [] then scheme ++ ':' :: url2 else url2
  let url4 := if query ≠ [] then url3 ++ '?' :: query else url3
  if fragment ≠ [] then url4 ++ '#' :: fragment else url4

/-- CPython `urllib.parse.urlunparse`, i.e. `ParseResult.geturl()`. -/
def geturl (r : ParseResult) : Str :=
  urlunsplit r.scheme r.netloc
    (if r.params ≠ [] then r.path ++ ';' :: r.params else r.path)
    r.query r.fragment

/-! ## The URL validator (`shared/url_validator.py`) -/

/-- The Python exception kinds this code can raise. -/
inductive PyErr where
  | urlValidationError (msg : String)
  | valueError (msg : String)
deriving DecidableEq, Repr

/-- The six checks `NotebookLMURLValidator.validate` performs, in source
order; used to name each `raise` site. -/
inductive Check where
  | emptiness
  | parseability
  | scheme
  | authority
  | path
  | fragment
deriving DecidableEq, Repr

def httpsL : Str := "https".toList
def allowedDomainL : Str := "notebooklm.google.com".toList
def nbPathLit : Str := "/notebook/".toList

/-- The character class `[a-f0-9-]` of `VALID_PATH_PATTERN`. -/
def isIdChar (c : Char) : Bool :=
  decide (('a' ≤ c ∧ c ≤ 'f') ∨ ('0' ≤ c ∧ c ≤ '9') ∨ c = '-')

/-- Tail of the regex after the id run: `(/.*)?$` where `.` matches
anything but LF and `$` matches at the end or before a final LF.  Greedy
matching of `[a-f0-9-]+` loses nothing here: the character after the
maximal run is not in the class, while every continuation of the pattern
demands `/`, the end, or a final LF at that position. -/
def matchTail : Str → Bool
  | [] => true
  | c :: rest =>
    if c = '\n' ∧ rest = [] then true
    else if c = '/' then rest.dropLast.all (fun x => decide (x ≠ '\n'))
    else false

/-- `s = lit ++ rest`? (literal-prefix step of the regex). -/
def dropLit : Str → Str → Option Str
  | [], s => some s
  | _ :: _, [] => none
  | p :: ps, c :: cs => if c = p then dropLit ps cs else none

/-- `re.match(r"^/notebook/[a-f0-9-]+(/.*)?$", path)` as a Boolean. -/
def rePathMatch (p : Str) : Bool :=
  match dropLit nbPathLit p with
  | none => false
  | some rest =>
    decide (rest.takeWhile isIdChar ≠ []) && matchTail (rest.dropWhile isIdChar)

/-- `NotebookLMURLValidator.validate`, with each `raise URLValidationError`
site tagged by the check (`Check`) it performs; the `String` component is
the message the source formats.  Query parameters only trigger a log
message in the source, which has no effect on the result and is not
modelled. -/
def validateCore (url : Str) : Except (Check × String) Str :=
  if url.isEmpty || (pyStrip url).isEmpty then
    .error (.emptiness, "URL cannot be empty")
  else
    let url := pyStrip url
    match urlparse url with
    | .error e => .error (.parseability, "Invalid URL format: " ++ e)
    | .ok parsed =>
      if parsed.scheme ≠ httpsL then
        .error (.scheme, "Only HTTPS URLs allowed. Got: " ++ parsed.scheme.asString ++ "://")
      else if parsed.netloc ≠ allowedDomainL then
        .error (.authority, "Only notebooklm.google.com URLs allowed. Got: " ++ parsed.netloc.asString)
      else if !rePathMatch parsed.path then
        .error (.path, "Invalid NotebookLM path format. Expected: /notebook/\x7buuid\x7d")
      else if parsed.fragment ≠ [] then
        .error (.fragment, "URL fragments not allowed")
      else
        .ok (geturl parsed)

namespace NotebookLMURLValidator

/-- `NotebookLMURLValidator.validate` at the `String` interface: every
failure is a raised `URLValidationError`. -/
def validate (url : String) : Except PyErr String :=
  match validateCore url.toList with
  | .ok l => .ok l.asString
  | .error (_, m) => .error (.urlValidationError m)

/-- `NotebookLMURLValidator.is_valid`: call `validate`, return `true` on
success; `except URLValidationError: return False`.  Any other exception
kind would propagate (modelled by the `Except` result). -/
def is_valid (url : String) : Except PyErr Bool :=
  match validate url with
  | .ok _ => .ok true
  | .error (.urlValidationError _) => .ok false
  | .error e => .error e

end NotebookLMURLValidator

/-! ## Spec-side restatement of the validator contract

Transcribed from the specification text (section 4.1): the six checks in
the stated order — emptiness, parseability, scheme, authority, path shape,
fragment — with the path pattern of the spec `/notebook/[a-f0-9-]+(/.*)?`
written directly (a `/notebook/` literal, a nonempty run of the id
character class, then either nothing or a `/` and anything); a query
string never causes failure; on success the re-serialised parsed URL is
returned. -/

/-- The path pattern as the spec words it: `/notebook/` then one or more `[a-f0-9-]`
characters, optionally followed by `/` and anything. -/
def specPathMatch (p : Str) : Bool :=
  match dropLit nbPathLit p with
  | none => false
  | some rest =>
    decide (rest.takeWhile isIdChar ≠ []) &&
      ((rest.dropWhile isIdChar).isEmpty || (rest.dropWhile isIdChar).head? = some '/')

/-- The validator contract as the specification words it (checks in the
stated order, each failure tagged with the check that fired). -/
def validateSpec (url : Str) : Except Check Str :=
  if url.isEmpty || (pyStrip url).isEmpty then .error .emptiness
  else
    let url := pyStrip url
    match urlparse url with
    | .error _ => .error .parseability
    | .ok parsed =>
      if parsed.scheme ≠ httpsL then .error .scheme
      else if parsed.netloc ≠ allowedDomainL then .error .authority
      else if !specPathMatch parsed.path then .error .path
      else if parsed.fragment ≠ [] then .error .fragment
      else .ok (geturl parsed)

/-! ## The notebook library (`scripts/notebook_manager.py`)

Timestamps (`datetime.now().isoformat()`) are passed in as explicit
`now : String` arguments.  A Python `dict` is modelled as an association
list in insertion order: adding a fresh key appends, updating a present
key rewrites it in place, deleting filters it out.  Since every operation
can raise, each returns the post-state alongside the result, so that
partial mutation before a raise would be observable. -/

structure Notebook where
  id : String
  url : String
  name : String
  description : String
  topics : List String
  content_types : List String
  use_cases : List String
  tags : List String
  created_at : String
  updated_at : String
  use_count : Nat
  last_used : Option String
deriving DecidableEq, Repr

abbrev NotebookMap := List (String × Notebook)

/-- `k in d` for the modelled dict (first-match lookup; real dict keys are
unique). -/
def dictMem : NotebookMap → String → Bool
  | [], _ => false
  | p :: rest, k => decide (p.1 = k) || dictMem rest k

/-- `d.get(k)` / `d[k]` for the modelled dict. -/
def dictGet : NotebookMap → String → Option Notebook
  | [], _ => none
  | p :: rest, k => if p.1 = k then some p.2 else dictGet rest k

/-- Rewriting a present key in place (position preserved). -/
def dictReplace : NotebookMap → String → Notebook → NotebookMap
  | [], _, _ => []
  | p :: rest, k, v =>
    if p.1 = k then (k, v) :: dictReplace rest k v else p :: dictReplace rest k v

/-- `d[k] = v`: rewrite a present key in place, append a fresh key. -/
def dictSet (m : NotebookMap) (k : String) (v : Notebook) : NotebookMap :=
  if dictMem m k then dictReplace m k v else m ++ [(k, v)]

/-- `del d[k]`. -/
def dictDel : NotebookMap → String → NotebookMap
  | [], _ => []
  | p :: rest, k => if p.1 = k then dictDel rest k else p :: dictDel rest k

/-- The mutable state of a `NotebookLibrary` (the persisted fields). -/
structure LibState where
  notebooks : NotebookMap
  active_notebook_id : Option String
deriving DecidableEq, Repr

/-! ### CPython `str.lower()`

`NotebookLibrary` derives notebook ids with Python `str.lower()`, which
lowercases per the Unicode database: a one-to-one mapping for every
character except U+0130 (LATIN CAPITAL LETTER I WITH DOT ABOVE, which
expands to `i` plus COMBINING DOT ABOVE) and U+03A3 (GREEK CAPITAL
LETTER SIGMA, lowered to the final form when in the Final_Sigma
context).  The tables below are the run-compressed CPython Unicode
tables, checked exhaustively against `chr(c).lower()` for every
codepoint and differentially on sigma-context strings. -/

/-- The one-to-one lowercase mappings as runs `(lo, hi, step, tlo)`:
codepoints `lo ≤ c ≤ hi` with `(c - lo) % step = 0` lower to
`tlo + (c - lo)`. -/
def lowerRuns : List (Nat × Nat × Nat × Nat) := [
  (0x41, 0x5A, 1, 0x61), (0xC0, 0xD6, 1, 0xE0), (0xD8, 0xDE, 1, 0xF8),
  (0x100, 0x12E, 2, 0x101), (0x132, 0x136, 2, 0x133), (0x139, 0x147, 2, 0x13A),
  (0x14A, 0x176, 2, 0x14B), (0x178, 0x178, 1, 0xFF), (0x179, 0x17D, 2, 0x17A),
  (0x181, 0x181, 1, 0x253), (0x182, 0x184, 2, 0x183), (0x186, 0x186, 1, 0x254),
  (0x187, 0x187, 1, 0x188), (0x189, 0x18A, 1, 0x256), (0x18B, 0x18B, 1, 0x18C),
  (0x18E, 0x18E, 1, 0x1DD), (0x18F, 0x18F, 1, 0x259), (0x190, 0x190, 1, 0x25B),
  (0x191, 0x191, 1, 0x192), (0x193, 0x193, 1, 0x260), (0x194, 0x194, 1, 0x263),
  (0x196, 0x196, 1, 0x269), (0x197, 0x197, 1, 0x268), (0x198, 0x198, 1, 0x199),
  (0x19C, 0x19C, 1, 0x26F), (0x19D, 0x19D, 1, 0x272), (0x19F, 0x19F, 1, 0x275),
  (0x1A0, 0x1A4, 2, 0x1A1), (0x1A6, 0x1A6, 1, 0x280), (0x1A7, 0x1A7, 1, 0x1A8),
  (0x1A9, 0x1A9, 1, 0x283), (0x1AC, 0x1AC, 1, 0x1AD), (0x1AE, 0x1AE, 1, 0x288),
  (0x1AF, 0x1AF, 1, 0x1B0), (0x1B1, 0x1B2, 1, 0x28A), (0x1B3, 0x1B5, 2, 0x1B4),
  (0x1B7, 0x1B7, 1, 0x292), (0x1B8, 0x1B8, 1, 0x1B9), (0x1BC, 0x1BC, 1, 0x1BD),
  (0x1C4, 0x1C4, 1, 0x1C6), (0x1C5, 0x1C5, 1, 0x1C6), (0x1C7, 0x1C7, 1, 0x1C9),
  (0x1C8, 0x1C8, 1, 0x1C9), (0x1CA, 0x1CA, 1, 0x1CC), (0x1CB, 0x1DB, 2, 0x1CC),
  (0x1DE, 0x1EE, 2, 0x1DF), (0x1F1, 0x1F1, 1, 0x1F3), (0x1F2, 0x1F4, 2, 0x1F3),
  (0x1F6, 0x1F6, 1, 0x195), (0x1F7, 0x1F7, 1, 0x1BF), (0x1F8, 0x21E, 2, 0x1F9),
  (0x220, 0x220, 1, 0x19E), (0x222, 0x232, 2, 0x223), (0x23A, 0x23A, 1, 0x2C65),
  (0x23B, 0x23B, 1, 0x23C), (0x23D, 0x23D, 1, 0x19A), (0x23E, 0x23E, 1, 0x2C66),
  (0x241, 0x241, 1, 0x242), (0x243, 0x243, 1, 0x180), (0x244, 0x244, 1, 0x289),
  (0x245, 0x245, 1, 0x28C), (0x246, 0x24E, 2, 0x247), (0x370, 0x372, 2, 0x371),
  (0x376, 0x376, 1, 0x377), (0x37F, 0x37F, 1, 0x3F3), (0x386, 0x386, 1, 0x3AC),
  (0x388, 0x38A, 1, 0x3AD), (0x38C, 0x38C, 1, 0x3CC), (0x38E, 0x38F, 1, 0x3CD),
  (0x391, 0x3A1, 1, 0x3B1), (0x3A3, 0x3AB, 1, 0x3C3), (0x3CF, 0x3CF, 1, 0x3D7),
  (0x3D8, 0x3EE, 2, 0x3D9), (0x3F4, 0x3F4, 1, 0x3B8), (0x3F7, 0x3F7, 1, 0x3F8),
  (0x3F9, 0x3F9, 1, 0x3F2), (0x3FA, 0x3FA, 1, 0x3FB), (0x3FD, 0x3FF, 1, 0x37B),
  (0x400, 0x40F, 1, 0x450), (0x410, 0x42F, 1, 0x430), (0x460, 0x480, 2, 0x461),
  (0x48A, 0x4BE, 2, 0x48B), (0x4C0, 0x4C0, 1, 0x4CF), (0x4C1, 0x4CD, 2, 0x4C2),
  (0x4D0, 0x52E, 2, 0x4D1), (0x531, 0x556, 1, 0x561), (0x10A0, 0x10C5, 1, 0x2D00),
  (0x10C7, 0x10C7, 1, 0x2D27), (0x10CD, 0x10CD, 1, 0x2D2D), (0x13A0, 0x13EF, 1, 0xAB70),
  (0x13F0, 0x13F5, 1, 0x13F8), (0x1C90, 0x1CBA, 1, 0x10D0), (0x1CBD, 0x1CBF, 1, 0x10FD),
  (0x1E00, 0x1E94, 2, 0x1E01), (0x1E9E, 0x1E9E, 1, 0xDF), (0x1EA0, 0x1EFE, 2, 0x1EA1),
  (0x1F08, 0x1F0F, 1, 0x1F00), (0x1F18, 0x1F1D, 1, 0x1F10), (0x1F28, 0x1F2F, 1, 0x1F20),
  (0x1F38, 0x1F3F, 1, 0x1F30), (0x1F48, 0x1F4D, 1, 0x1F40), (0x1F59, 0x1F5F, 2, 0x1F51),
  (0x1F68, 0x1F6F, 1, 0x1F60), (0x1F88, 0x1F8F, 1, 0x1F80), (0x1F98, 0x1F9F, 1, 0x1F90),
  (0x1FA8, 0x1FAF, 1, 0x1FA0), (0x1FB8, 0x1FB9, 1, 0x1FB0), (0x1FBA, 0x1FBB, 1, 0x1F70),
  (0x1FBC, 0x1FBC, 1, 0x1FB3), (0x1FC8, 0x1FCB, 1, 0x1F72), (0x1FCC, 0x1FCC, 1, 0x1FC3),
  (0x1FD8, 0x1FD9, 1, 0x1FD0), (0x1FDA, 0x1FDB, 1, 0x1F76), (0x1FE8, 0x1FE9, 1, 0x1FE0),
  (0x1FEA, 0x1FEB, 1, 0x1F7A), (0x1FEC, 0x1FEC, 1, 0x1FE5), (0x1FF8, 0x1FF9, 1, 0x1F78),
  (0x1FFA, 0x1FFB, 1, 0x1F7C), (0x1FFC, 0x1FFC, 1, 0x1FF3), (0x2126, 0x2126, 1, 0x3C9),
  (0x212A, 0x212A, 1, 0x6B), (0x212B, 0x212B, 1, 0xE5), (0x2132, 0x2132, 1, 0x214E),
  (0x2160, 0x216F, 1, 0x2170), (0x2183, 0x2183, 1, 0x2184), (0x24B6, 0x24CF, 1, 0x24D0),
  (0x2C00, 0x2C2F, 1, 0x2C30), (0x2C60, 0x2C60, 1, 0x2C61), (0x2C62, 0x2C62, 1, 0x26B),
  (0x2C63, 0x2C63, 1, 0x1D7D), (0x2C64, 0x2C64, 1, 0x27D), (0x2C67, 0x2C6B, 2, 0x2C68),
  (0x2C6D, 0x2C6D, 1, 0x251), (0x2C6E, 0x2C6E, 1, 0x271), (0x2C6F, 0x2C6F, 1, 0x250),
  (0x2C70, 0x2C70, 1, 0x252), (0x2C72, 0x2C72, 1, 0x2C73), (0x2C75, 0x2C75, 1, 0x2C76),
  (0x2C7E, 0x2C7F, 1, 0x23F), (0x2C80, 0x2CE2, 2, 0x2C81), (0x2CEB, 0x2CED, 2, 0x2CEC),
  (0x2CF2, 0x2CF2, 1, 0x2CF3), (0xA640, 0xA66C, 2, 0xA641), (0xA680, 0xA69A, 2, 0xA681),
  (0xA722, 0xA72E, 2, 0xA723), (0xA732, 0xA76E, 2, 0xA733), (0xA779, 0xA77B, 2, 0xA77A),
  (0xA77D, 0xA77D, 1, 0x1D79), (0xA77E, 0xA786, 2, 0xA77F), (0xA78B, 0xA78B, 1, 0xA78C),
  (0xA78D, 0xA78D, 1, 0x265), (0xA790, 0xA792, 2, 0xA791), (0xA796, 0xA7A8, 2, 0xA797),
  (0xA7AA, 0xA7AA, 1, 0x266), (0xA7AB, 0xA7AB, 1, 0x25C), (0xA7AC, 0xA7AC, 1, 0x261),
  (0xA7AD, 0xA7AD, 1, 0x26C), (0xA7AE, 0xA7AE, 1, 0x26A), (0xA7B0, 0xA7B0, 1, 0x29E),
  (0xA7B1, 0xA7B1, 1, 0x287), (0xA7B2, 0xA7B2, 1, 0x29D), (0xA7B3, 0xA7B3, 1, 0xAB53),
  (0xA7B4, 0xA7C2, 2, 0xA7B5), (0xA7C4, 0xA7C4, 1, 0xA794), (0xA7C5, 0xA7C5, 1, 0x282),
  (0xA7C6, 0xA7C6, 1, 0x1D8E), (0xA7C7, 0xA7C9, 2, 0xA7C8), (0xA7D0, 0xA7D0, 1, 0xA7D1),
  (0xA7D6, 0xA7D8, 2, 0xA7D7), (0xA7F5, 0xA7F5, 1, 0xA7F6), (0xFF21, 0xFF3A, 1, 0xFF41),
  (0x10400, 0x10427, 1, 0x10428), (0x104B0, 0x104D3, 1, 0x104D8), (0x10570, 0x1057A, 1, 0x10597),
  (0x1057C, 0x1058A, 1, 0x105A3), (0x1058C, 0x10592, 1, 0x105B3), (0x10594, 0x10595, 1, 0x105BB),
  (0x10C80, 0x10CB2, 1, 0x10CC0), (0x118A0, 0x118BF, 1, 0x118C0), (0x16E40, 0x16E5F, 1, 0x16E60),
  (0x1E900, 0x1E921, 1, 0x1E922)]

/-- Codepoint ranges of the `Cased` property as CPython uses it in the
Final_Sigma scan (characters that stop the scan as cased; characters
that are also `Case_Ignorable` are skipped before this is consulted). -/
def casedRanges : List (Nat × Nat) := [
  (0x41, 0x5A), (0x61, 0x7A), (0xAA, 0xAA), (0xB5, 0xB5), (0xBA, 0xBA),
  (0xC0, 0xD6), (0xD8, 0xF6), (0xF8, 0x1BA), (0x1BC, 0x1BF), (0x1C4, 0x293),
  (0x295, 0x2AF), (0x370, 0x373), (0x376, 0x377), (0x37B, 0x37D), (0x37F, 0x37F),
  (0x386, 0x386), (0x388, 0x38A), (0x38C, 0x38C), (0x38E, 0x3A1), (0x3A3, 0x3F5),
  (0x3F7, 0x481), (0x48A, 0x52F), (0x531, 0x556), (0x560, 0x588), (0x10A0, 0x10C5),
  (0x10C7, 0x10C7), (0x10CD, 0x10CD), (0x10D0, 0x10FA), (0x10FD, 0x10FF), (0x13A0, 0x13F5),
  (0x13F8, 0x13FD), (0x1C80, 0x1C88), (0x1C90, 0x1CBA), (0x1CBD, 0x1CBF), (0x1D00, 0x1D2B),
  (0x1D6B, 0x1D77), (0x1D79, 0x1D9A), (0x1E00, 0x1F15), (0x1F18, 0x1F1D), (0x1F20, 0x1F45),
  (0x1F48, 0x1F4D), (0x1F50, 0x1F57), (0x1F59, 0x1F59), (0x1F5B, 0x1F5B), (0x1F5D, 0x1F5D),
  (0x1F5F, 0x1F7D), (0x1F80, 0x1FB4), (0x1FB6, 0x1FBC), (0x1FBE, 0x1FBE), (0x1FC2, 0x1FC4),
  (0x1FC6, 0x1FCC), (0x1FD0, 0x1FD3), (0x1FD6, 0x1FDB), (0x1FE0, 0x1FEC), (0x1FF2, 0x1FF4),
  (0x1FF6, 0x1FFC), (0x2102, 0x2102), (0x2107, 0x2107), (0x210A, 0x2113), (0x2115, 0x2115),
  (0x2119, 0x211D), (0x2124, 0x2124), (0x2126, 0x2126), (0x2128, 0x2128), (0x212A, 0x212D),
  (0x212F, 0x2134), (0x2139, 0x2139), (0x213C, 0x213F), (0x2145, 0x2149), (0x214E, 0x214E),
  (0x2160, 0x217F), (0x2183, 0x2184), (0x24B6, 0x24E9), (0x2C00, 0x2C7B), (0x2C7E, 0x2CE4),
  (0x2CEB, 0x2CEE), (0x2CF2, 0x2CF3), (0x2D00, 0x2D25), (0x2D27, 0x2D27), (0x2D2D, 0x2D2D),
  (0xA640, 0xA66D), (0xA680, 0xA69B), (0xA722, 0xA76F), (0xA771, 0xA787), (0xA78B, 0xA78E),
  (0xA790, 0xA7CA), (0xA7D0, 0xA7D1), (0xA7D3, 0xA7D3), (0xA7D5, 0xA7D9), (0xA7F5, 0xA7F6),
  (0xA7FA, 0xA7FA), (0xAB30, 0xAB5A), (0xAB60, 0xAB68), (0xAB70, 0xABBF), (0xFB00, 0xFB06),
  (0xFB13, 0xFB17), (0xFF21, 0xFF3A), (0xFF41, 0xFF5A), (0x10400, 0x1044F), (0x104B0, 0x104D3),
  (0x104D8, 0x104FB), (0x10570, 0x1057A), (0x1057C, 0x1058A), (0x1058C, 0x10592), (0x10594, 0x10595),
  (0x10597, 0x105A1), (0x105A3, 0x105B1), (0x105B3, 0x105B9), (0x105BB, 0x105BC), (0x10C80, 0x10CB2),
  (0x10CC0, 0x10CF2), (0x118A0, 0x118DF), (0x16E40, 0x16E7F), (0x1D400, 0x1D454), (0x1D456, 0x1D49C),
  (0x1D49E, 0x1D49F), (0x1D4A2, 0x1D4A2), (0x1D4A5, 0x1D4A6), (0x1D4A9, 0x1D4AC), (0x1D4AE, 0x1D4B9),
  (0x1D4BB, 0x1D4BB), (0x1D4BD, 0x1D4C3), (0x1D4C5, 0x1D505), (0x1D507, 0x1D50A), (0x1D50D, 0x1D514),
  (0x1D516, 0x1D51C), (0x1D51E, 0x1D539), (0x1D53B, 0x1D53E), (0x1D540, 0x1D544), (0x1D546, 0x1D546),
  (0x1D54A, 0x1D550), (0x1D552, 0x1D6A5), (0x1D6A8, 0x1D6C0), (0x1D6C2, 0x1D6DA), (0x1D6DC, 0x1D6FA),
  (0x1D6FC, 0x1D714), (0x1D716, 0x1D734), (0x1D736, 0x1D74E), (0x1D750, 0x1D76E), (0x1D770, 0x1D788),
  (0x1D78A, 0x1D7A8), (0x1D7AA, 0x1D7C2), (0x1D7C4, 0x1D7CB), (0x1DF00, 0x1DF09), (0x1DF0B, 0x1DF1E),
  (0x1E900, 0x1E943), (0x1F130, 0x1F149), (0x1F150, 0x1F169), (0x1F170, 0x1F189)]

/-- Codepoint ranges of the `Case_Ignorable` property (skipped by the
Final_Sigma scans). -/
def caseIgnorableRanges : List (Nat × Nat) := [
  (0x27, 0x27), (0x2E, 0x2E), (0x3A, 0x3A), (0x5E, 0x5E), (0x60, 0x60),
  (0xA8, 0xA8), (0xAD, 0xAD), (0xAF, 0xAF), (0xB4, 0xB4), (0xB7, 0xB8),
  (0x2B0, 0x36F), (0x374, 0x375), (0x37A, 0x37A), (0x384, 0x385), (0x387, 0x387),
  (0x483, 0x489), (0x559, 0x559), (0x55F, 0x55F), (0x591, 0x5BD), (0x5BF, 0x5BF),
  (0x5C1, 0x5C2), (0x5C4, 0x5C5), (0x5C7, 0x5C7), (0x5F4, 0x5F4), (0x600, 0x605),
  (0x610, 0x61A), (0x61C, 0x61C), (0x640, 0x640), (0x64B, 0x65F), (0x670, 0x670),
  (0x6D6, 0x6DD), (0x6DF, 0x6E8), (0x6EA, 0x6ED), (0x70F, 0x70F), (0x711, 0x711),
  (0x730, 0x74A), (0x7A6, 0x7B0), (0x7EB, 0x7F5), (0x7FA, 0x7FA), (0x7FD, 0x7FD),
  (0x816, 0x82D), (0x859, 0x85B), (0x888, 0x888), (0x890, 0x891), (0x898, 0x89F),
  (0x8C9, 0x902), (0x93A, 0x93A), (0x93C, 0x93C), (0x941, 0x948), (0x94D, 0x94D),
  (0x951, 0x957), (0x962, 0x963), (0x971, 0x971), (0x981, 0x981), (0x9BC, 0x9BC),
  (0x9C1, 0x9C4), (0x9CD, 0x9CD), (0x9E2, 0x9E3), (0x9FE, 0x9FE), (0xA01, 0xA02),
  (0xA3C, 0xA3C), (0xA41, 0xA42), (0xA47, 0xA48), (0xA4B, 0xA4D), (0xA51, 0xA51),
  (0xA70, 0xA71), (0xA75, 0xA75), (0xA81, 0xA82), (0xABC, 0xABC), (0xAC1, 0xAC5),
  (0xAC7, 0xAC8), (0xACD, 0xACD), (0xAE2, 0xAE3), (0xAFA, 0xAFF), (0xB01, 0xB01),
  (0xB3C, 0xB3C), (0xB3F, 0xB3F), (0xB41, 0xB44), (0xB4D, 0xB4D), (0xB55, 0xB56),
  (0xB62, 0xB63), (0xB82, 0xB82), (0xBC0, 0xBC0), (0xBCD, 0xBCD), (0xC00, 0xC00),
  (0xC04, 0xC04), (0xC3C, 0xC3C), (0xC3E, 0xC40), (0xC46, 0xC48), (0xC4A, 0xC4D),
  (0xC55, 0xC56), (0xC62, 0xC63), (0xC81, 0xC81), (0xCBC, 0xCBC), (0xCBF, 0xCBF),
  (0xCC6, 0xCC6), (0xCCC, 0xCCD), (0xCE2, 0xCE3), (0xD00, 0xD01), (0xD3B, 0xD3C),
  (0xD41, 0xD44), (0xD4D, 0xD4D), (0xD62, 0xD63), (0xD81, 0xD81), (0xDCA, 0xDCA),
  (0xDD2, 0xDD4), (0xDD6, 0xDD6), (0xE31, 0xE31), (0xE34, 0xE3A), (0xE46, 0xE4E),
  (0xEB1, 0xEB1), (0xEB4, 0xEBC), (0xEC6, 0xEC6), (0xEC8, 0xECD), (0xF18, 0xF19),
  (0xF35, 0xF35), (0xF37, 0xF37), (0xF39, 0xF39), (0xF71, 0xF7E), (0xF80, 0xF84),
  (0xF86, 0xF87), (0xF8D, 0xF97), (0xF99, 0xFBC), (0xFC6, 0xFC6), (0x102D, 0x1030),
  (0x1032, 0x1037), (0x1039, 0x103A), (0x103D, 0x103E), (0x1058, 0x1059), (0x105E, 0x1060),
  (0x1071, 0x1074), (0x1082, 0x1082), (0x1085, 0x1086), (0x108D, 0x108D), (0x109D, 0x109D),
  (0x10FC, 0x10FC), (0x135D, 0x135F), (0x1712, 0x1714), (0x1732, 0x1733), (0x1752, 0x1753),
  (0x1772, 0x1773), (0x17B4, 0x17B5), (0x17B7, 0x17BD), (0x17C6, 0x17C6), (0x17C9, 0x17D3),
  (0x17D7, 0x17D7), (0x17DD, 0x17DD), (0x180B, 0x180F), (0x1843, 0x1843), (0x1885, 0x1886),
  (0x18A9, 0x18A9), (0x1920, 0x1922), (0x1927, 0x1928), (0x1932, 0x1932), (0x1939, 0x193B),
  (0x1A17, 0x1A18), (0x1A1B, 0x1A1B), (0x1A56, 0x1A56), (0x1A58, 0x1A5E), (0x1A60, 0x1A60),
  (0x1A62, 0x1A62), (0x1A65, 0x1A6C), (0x1A73, 0x1A7C), (0x1A7F, 0x1A7F), (0x1AA7, 0x1AA7),
  (0x1AB0, 0x1ACE), (0x1B00, 0x1B03), (0x1B34, 0x1B34), (0x1B36, 0x1B3A), (0x1B3C, 0x1B3C),
  (0x1B42, 0x1B42), (0x1B6B, 0x1B73), (0x1B80, 0x1B81), (0x1BA2, 0x1BA5), (0x1BA8, 0x1BA9),
  (0x1BAB, 0x1BAD), (0x1BE6, 0x1BE6), (0x1BE8, 0x1BE9), (0x1BED, 0x1BED), (0x1BEF, 0x1BF1),
  (0x1C2C, 0x1C33), (0x1C36, 0x1C37), (0x1C78, 0x1C7D), (0x1CD0, 0x1CD2), (0x1CD4, 0x1CE0),
  (0x1CE2, 0x1CE8), (0x1CED, 0x1CED), (0x1CF4, 0x1CF4), (0x1CF8, 0x1CF9), (0x1D2C, 0x1D6A),
  (0x1D78, 0x1D78), (0x1D9B, 0x1DFF), (0x1FBD, 0x1FBD), (0x1FBF, 0x1FC1), (0x1FCD, 0x1FCF),
  (0x1FDD, 0x1FDF), (0x1FED, 0x1FEF), (0x1FFD, 0x1FFE), (0x200B, 0x200F), (0x2018, 0x2019),
  (0x2024, 0x2024), (0x2027, 0x2027), (0x202A, 0x202E), (0x2060, 0x2064), (0x2066, 0x206F),
  (0x2071, 0x2071), (0x207F, 0x207F), (0x2090, 0x209C), (0x20D0, 0x20F0), (0x2C7C, 0x2C7D),
  (0x2CEF, 0x2CF1), (0x2D6F, 0x2D6F), (0x2D7F, 0x2D7F), (0x2DE0, 0x2DFF), (0x2E2F, 0x2E2F),
  (0x3005, 0x3005), (0x302A, 0x302D), (0x3031, 0x3035), (0x303B, 0x303B), (0x3099, 0x309E),
  (0x30FC, 0x30FE), (0xA015, 0xA015), (0xA4F8, 0xA4FD), (0xA60C, 0xA60C), (0xA66F, 0xA672),
  (0xA674, 0xA67D), (0xA67F, 0xA67F), (0xA69C, 0xA69F), (0xA6F0, 0xA6F1), (0xA700, 0xA721),
  (0xA770, 0xA770), (0xA788, 0xA78A), (0xA7F2, 0xA7F4), (0xA7F8, 0xA7F9), (0xA802, 0xA802),
  (0xA806, 0xA806), (0xA80B, 0xA80B), (0xA825, 0xA826), (0xA82C, 0xA82C), (0xA8C4, 0xA8C5),
  (0xA8E0, 0xA8F1), (0xA8FF, 0xA8FF), (0xA926, 0xA92D), (0xA947, 0xA951), (0xA980, 0xA982),
  (0xA9B3, 0xA9B3), (0xA9B6, 0xA9B9), (0xA9BC, 0xA9BD), (0xA9CF, 0xA9CF), (0xA9E5, 0xA9E6),
  (0xAA29, 0xAA2E), (0xAA31, 0xAA32), (0xAA35, 0xAA36), (0xAA43, 0xAA43), (0xAA4C, 0xAA4C),
  (0xAA70, 0xAA70), (0xAA7C, 0xAA7C), (0xAAB0, 0xAAB0), (0xAAB2, 0xAAB4), (0xAAB7, 0xAAB8),
  (0xAABE, 0xAABF), (0xAAC1, 0xAAC1), (0xAADD, 0xAADD), (0xAAEC, 0xAAED), (0xAAF3, 0xAAF4),
  (0xAAF6, 0xAAF6), (0xAB5B, 0xAB5F), (0xAB69, 0xAB6B), (0xABE5, 0xABE5), (0xABE8, 0xABE8),
  (0xABED, 0xABED), (0xFB1E, 0xFB1E), (0xFBB2, 0xFBC2), (0xFE00, 0xFE0F), (0xFE13, 0xFE13),
  (0xFE20, 0xFE2F), (0xFE52, 0xFE52), (0xFE55, 0xFE55), (0xFEFF, 0xFEFF), (0xFF07, 0xFF07),
  (0xFF0E, 0xFF0E), (0xFF1A, 0xFF1A), (0xFF3E, 0xFF3E), (0xFF40, 0xFF40), (0xFF70, 0xFF70),
  (0xFF9E, 0xFF9F), (0xFFE3, 0xFFE3), (0xFFF9, 0xFFFB), (0x101FD, 0x101FD), (0x102E0, 0x102E0),
  (0x10376, 0x1037A), (0x10780, 0x10785), (0x10787, 0x107B0), (0x107B2, 0x107BA), (0x10A01, 0x10A03),
  (0x10A05, 0x10A06), (0x10A0C, 0x10A0F), (0x10A38, 0x10A3A), (0x10A3F, 0x10A3F), (0x10AE5, 0x10AE6),
  (0x10D24, 0x10D27), (0x10EAB, 0x10EAC), (0x10F46, 0x10F50), (0x10F82, 0x10F85), (0x11001, 0x11001),
  (0x11038, 0x11046), (0x11070, 0x11070), (0x11073, 0x11074), (0x1107F, 0x11081), (0x110B3, 0x110B6),
  (0x110B9, 0x110BA), (0x110BD, 0x110BD), (0x110C2, 0x110C2), (0x110CD, 0x110CD), (0x11100, 0x11102),
  (0x11127, 0x1112B), (0x1112D, 0x11134), (0x11173, 0x11173), (0x11180, 0x11181), (0x111B6, 0x111BE),
  (0x111C9, 0x111CC), (0x111CF, 0x111CF), (0x1122F, 0x11231), (0x11234, 0x11234), (0x11236, 0x11237),
  (0x1123E, 0x1123E), (0x112DF, 0x112DF), (0x112E3, 0x112EA), (0x11300, 0x11301), (0x1133B, 0x1133C),
  (0x11340, 0x11340), (0x11366, 0x1136C), (0x11370, 0x11374), (0x11438, 0x1143F), (0x11442, 0x11444),
  (0x11446, 0x11446), (0x1145E, 0x1145E), (0x114B3, 0x114B8), (0x114BA, 0x114BA), (0x114BF, 0x114C0),
  (0x114C2, 0x114C3), (0x115B2, 0x115B5), (0x115BC, 0x115BD), (0x115BF, 0x115C0), (0x115DC, 0x115DD),
  (0x11633, 0x1163A), (0x1163D, 0x1163D), (0x1163F, 0x11640), (0x116AB, 0x116AB), (0x116AD, 0x116AD),
  (0x116B0, 0x116B5), (0x116B7, 0x116B7), (0x1171D, 0x1171F), (0x11722, 0x11725), (0x11727, 0x1172B),
  (0x1182F, 0x11837), (0x11839, 0x1183A), (0x1193B, 0x1193C), (0x1193E, 0x1193E), (0x11943, 0x11943),
  (0x119D4, 0x119D7), (0x119DA, 0x119DB), (0x119E0, 0x119E0), (0x11A01, 0x11A0A), (0x11A33, 0x11A38),
  (0x11A3B, 0x11A3E), (0x11A47, 0x11A47), (0x11A51, 0x11A56), (0x11A59, 0x11A5B), (0x11A8A, 0x11A96),
  (0x11A98, 0x11A99), (0x11C30, 0x11C36), (0x11C38, 0x11C3D), (0x11C3F, 0x11C3F), (0x11C92, 0x11CA7),
  (0x11CAA, 0x11CB0), (0x11CB2, 0x11CB3), (0x11CB5, 0x11CB6), (0x11D31, 0x11D36), (0x11D3A, 0x11D3A),
  (0x11D3C, 0x11D3D), (0x11D3F, 0x11D45), (0x11D47, 0x11D47), (0x11D90, 0x11D91), (0x11D95, 0x11D95),
  (0x11D97, 0x11D97), (0x11EF3, 0x11EF4), (0x13430, 0x13438), (0x16AF0, 0x16AF4), (0x16B30, 0x16B36),
  (0x16B40, 0x16B43), (0x16F4F, 0x16F4F), (0x16F8F, 0x16F9F), (0x16FE0, 0x16FE1), (0x16FE3, 0x16FE4),
  (0x1AFF0, 0x1AFF3), (0x1AFF5, 0x1AFFB), (0x1AFFD, 0x1AFFE), (0x1BC9D, 0x1BC9E), (0x1BCA0, 0x1BCA3),
  (0x1CF00, 0x1CF2D), (0x1CF30, 0x1CF46), (0x1D167, 0x1D169), (0x1D173, 0x1D182), (0x1D185, 0x1D18B),
  (0x1D1AA, 0x1D1AD), (0x1D242, 0x1D244), (0x1DA00, 0x1DA36), (0x1DA3B, 0x1DA6C), (0x1DA75, 0x1DA75),
  (0x1DA84, 0x1DA84), (0x1DA9B, 0x1DA9F), (0x1DAA1, 0x1DAAF), (0x1E000, 0x1E006), (0x1E008, 0x1E018),
  (0x1E01B, 0x1E021), (0x1E023, 0x1E024), (0x1E026, 0x1E02A), (0x1E130, 0x1E13D), (0x1E2AE, 0x1E2AE),
  (0x1E2EC, 0x1E2EF), (0x1E8D0, 0x1E8D6), (0x1E944, 0x1E94B), (0x1F3FB, 0x1F3FF), (0xE0001, 0xE0001),
  (0xE0020, 0xE007F), (0xE0100, 0xE01EF)]

def inRanges (rs : List (Nat × Nat)) (c : Nat) : Bool :=
  rs.any (fun r => decide (r.1 ≤ c ∧ c ≤ r.2))

def isCasedCp (c : Char) : Bool := inRanges casedRanges c.toNat

def isCaseIgnorableCp (c : Char) : Bool := inRanges caseIgnorableRanges c.toNat

/-- The one-to-one part of `str.lower()` (identity off the table). -/
def lowerSimple (c : Nat) : Nat :=
  match lowerRuns.find? (fun r =>
      decide (r.1 ≤ c ∧ c ≤ r.2.1 ∧ (c - r.1) % r.2.2.1 = 0)) with
  | some r => r.2.2.2 + (c - r.1)
  | none => c

/-- Lowering of one character, with the single unconditional full-case
expansion U+0130 → U+0069 U+0307. -/
def pyLowerChar (c : Char) : Str :=
  if c.toNat = 0x130 then [Char.ofNat 0x69, Char.ofNat 0x307]
  else [Char.ofNat (lowerSimple c.toNat)]

/-- The Final_Sigma context test of CPython `handle_capital_sigma`:
U+03A3 is final when the nearest non-case-ignorable character before it
exists and is cased, and the nearest non-case-ignorable character after
it is absent or not cased.  `prevRev` is the text before the sigma,
reversed. -/
def finalSigma (prevRev next : Str) : Bool :=
  match prevRev.dropWhile isCaseIgnorableCp with
  | [] => false
  | b :: _ =>
    isCasedCp b &&
    (match next.dropWhile isCaseIgnorableCp with
     | [] => true
     | a :: _ => !isCasedCp a)

def pyLowerAux : Str → Str → Str
  | _, [] => []
  | prevRev, c :: rest =>
    (if c.toNat = 0x3A3 then
      [if finalSigma prevRev rest then Char.ofNat 0x3C2 else Char.ofNat 0x3C3]
     else pyLowerChar c) ++ pyLowerAux (c :: prevRev) rest

/-- Python `str.lower()`. -/
def pyLower (s : Str) : Str := pyLowerAux [] s

namespace NotebookLibrary

/-- Id derivation in `add_notebook`:
`name.lower().replace(' ', '-').replace('_', '-')`, with `lower` the
Unicode-aware `pyLower` model of Python `str.lower()`. -/
def deriveId (name : String) : String :=
  (((pyLower name.toList).map (fun c => if c = ' ' then '-' else c)).map
    (fun c => if c = '_' then '-' else c)).asString

/-- `NotebookLibrary.add_notebook`.  `_save_library` (called before
returning) never raises and never changes these fields; it is modelled
separately by `save_library`. -/
def add_notebook (st : LibState) (url name description : String)
    (topics : List String) (content_types use_cases tags : Option (List String))
    (now : String) : Except PyErr Notebook × LibState :=
  match NotebookLMURLValidator.validate url with
  | .error (.urlValidationError e) =>
    (.error (.valueError ("Invalid NotebookLM URL: " ++ e)), st)
  | .error e => (.error e, st)
  | .ok validated_url =>
    let notebook_id := deriveId name
    if dictMem st.notebooks notebook_id then
      (.error (.valueError ("Notebook with ID \x27" ++ notebook_id ++ "\x27 already exists")), st)
    else
      let notebook : Notebook :=
        { id := notebook_id, url := validated_url, name := name,
          description := description, topics := topics,
          content_types := content_types.getD [],
          use_cases := use_cases.getD [], tags := tags.getD [],
          created_at := now, updated_at := now,
          use_count := 0, last_used := none }
      let notebooks := dictSet st.notebooks notebook_id notebook
      let active := if notebooks.length = 1 then some notebook_id
                    else st.active_notebook_id
      (.ok notebook, ⟨notebooks, active⟩)

/-- `NotebookLibrary.remove_notebook`. -/
def remove_notebook (st : LibState) (notebook_id : String) : Bool × LibState :=
  if dictMem st.notebooks notebook_id then
    let notebooks := dictDel st.notebooks notebook_id
    let active :=
      if st.active_notebook_id = some notebook_id then
        match notebooks.map Prod.fst with
        | [] => none
        | k :: _ => some k
      else st.active_notebook_id
    (true, ⟨notebooks, active⟩)
  else (false, st)

/-- `NotebookLibrary.update_notebook`: absent id raises; a supplied url is
validated (and written) before any other field is touched; every omitted
field keeps its value; `updated_at` is always refreshed. -/
def update_notebook (st : LibState) (notebook_id : String)
    (name description : Option String)
    (topics content_types use_cases tags : Option (List String))
    (url : Option String) (now : String) : Except PyErr Notebook × LibState :=
  match dictGet st.notebooks notebook_id with
  | none => (.error (.valueError ("Notebook not found: " ++ notebook_id)), st)
  | some nb0 =>
    let step1 : Except PyErr Notebook :=
      match url with
      | none => .ok nb0
      | some u =>
        match NotebookLMURLValidator.validate u with
        | .ok validated_url => .ok { nb0 with url := validated_url }
        | .error (.urlValidationError e) =>
          .error (.valueError ("Invalid NotebookLM URL: " ++ e))
        | .error e => .error e
    match step1 with
    | .error e => (.error e, st)
    | .ok nb1 =>
      let nb2 : Notebook :=
        { nb1 with
          name := name.getD nb1.name,
          description := description.getD nb1.description,
          topics := topics.getD nb1.topics,
          content_types := content_types.getD nb1.content_types,
          use_cases := use_cases.getD nb1.use_cases,
          tags := tags.getD nb1.tags,
          updated_at := now }
      (.ok nb2, ⟨dictSet st.notebooks notebook_id nb2, st.active_notebook_id⟩)

/-- `NotebookLibrary.get_notebook`. -/
def get_notebook (st : LibState) (notebook_id : String) : Option Notebook :=
  dictGet st.notebooks notebook_id

/-- `NotebookLibrary.select_notebook`. -/
def select_notebook (st : LibState) (notebook_id : String) :
    Except PyErr Notebook × LibState :=
  if dictMem st.notebooks notebook_id then
    match dictGet st.notebooks notebook_id with
    | some nb => (.ok nb, ⟨st.notebooks, some notebook_id⟩)
    | none => (.error (.valueError ("Notebook not found: " ++ notebook_id)), st)
  else (.error (.valueError ("Notebook not found: " ++ notebook_id)), st)

/-- `NotebookLibrary.get_active_notebook`. -/
def get_active_notebook (st : LibState) : Option Notebook :=
  match st.active_notebook_id with
  | some a => dictGet st.notebooks a
  | none => none

/-- `NotebookLibrary.increment_use_count`. -/
def increment_use_count (st : LibState) (notebook_id : String) (now : String) :
    Except PyErr Notebook × LibState :=
  match dictGet st.notebooks notebook_id with
  | none => (.error (.valueError ("Notebook not found: " ++ notebook_id)), st)
  | some nb =>
    let nb1 := { nb with use_count := nb.use_count + 1, last_used := some now }
    (.ok nb1, ⟨dictSet st.notebooks notebook_id nb1, st.active_notebook_id⟩)

end NotebookLibrary

/-! ## Persistence (`_save_library` / `_load_library`)

The persisted snapshot is JSON; its in-memory image is modelled by a JSON
value tree (Python `json.dump`/`json.load` round-trip a tree of dicts,
lists, strings, ints and `None` unchanged, dict insertion order
included). -/

inductive Json where
  | null
  | str (s : String)
  | num (n : Int)
  | arr (xs : List Json)
  | obj (fields : List (String × Json))

namespace Json

/-- `d.get(k)` on a JSON object (`none` when the key is absent). -/
def get : Json → String → Option Json
  | .obj fields, k => (fields.find? (fun p => p.1 = k)).map Prod.snd
  | _, _ => none

end Json

/-- The JSON image of one notebook record (the dict built in
`add_notebook`, field order included). -/
def notebookJson (nb : Notebook) : Json :=
  .obj [("id", .str nb.id), ("url", .str nb.url), ("name", .str nb.name),
        ("description", .str nb.description),
        ("topics", .arr (nb.topics.map Json.str)),
        ("content_types", .arr (nb.content_types.map Json.str)),
        ("use_cases", .arr (nb.use_cases.map Json.str)),
        ("tags", .arr (nb.tags.map Json.str)),
        ("created_at", .str nb.created_at),
        ("updated_at", .str nb.updated_at),
        ("use_count", .num nb.use_count),
        ("last_used", match nb.last_used with | none => .null | some t => .str t)]

/-- The snapshot `_save_library` writes:
a dict with the keys `notebooks`, `active_notebook_id` and `updated_at` (the latter set to `now`). -/
def libraryJson (st : LibState) (now : String) : Json :=
  .obj [("notebooks", .obj (st.notebooks.map (fun p => (p.1, notebookJson p.2)))),
        ("active_notebook_id",
          match st.active_notebook_id with | none => .null | some a => .str a),
        ("updated_at", .str now)]

namespace NotebookLibrary

/-- `NotebookLibrary._save_library`: build the snapshot dict and write it;
any exception from the write is caught and printed (`❌ Error saving
library: ...`), never re-raised.  `writeError = some e` models the write
raising an exception whose text is `e`; the returned pair is the snapshot
actually written (if any) and the lines printed. -/
def save_library (st : LibState) (now : String) (writeError : Option String) :
    Except PyErr (Option Json × List String) :=
  match writeError with
  | none => .ok (some (libraryJson st now), [])
  | some e => .ok (none, ["❌ Error saving library: " ++ e])

end NotebookLibrary

/-- Decoding a list of JSON strings. -/
def strListOfJsonList : List Json → Option (List String)
  | [] => some []
  | .str s :: rest => (strListOfJsonList rest).map (s :: ·)
  | _ :: _ => none

/-- Reading one notebook record back from its JSON image (the snapshot
record schema of spec section 6).  The Python loader performs no decoding
(records are plain dicts before and after the round-trip); this function
states which JSON shape corresponds to a record of the model. -/
def notebookOfJson : Json → Option Notebook
  | .obj [("id", .str id), ("url", .str url), ("name", .str name),
          ("description", .str description), ("topics", .arr topics),
          ("content_types", .arr content_types), ("use_cases", .arr use_cases),
          ("tags", .arr tags), ("created_at", .str created_at),
          ("updated_at", .str updated_at), ("use_count", .num uc),
          ("last_used", lu)] => do
    let topics ← strListOfJsonList topics
    let content_types ← strListOfJsonList content_types
    let use_cases ← strListOfJsonList use_cases
    let tags ← strListOfJsonList tags
    let use_count ← uc.toNat'
    let last_used ← (match lu with
      | .null => some none
      | .str s => some (some s)
      | _ => none)
    pure { id, url, name, description, topics, content_types, use_cases, tags,
           created_at, updated_at, use_count, last_used }
  | _ => none

/-- Decoding the `notebooks` object back into the keyed mapping. -/
def notebooksOfJson : List (String × Json) → Option NotebookMap
  | [] => some []
  | (k, j) :: rest =>
    match notebookOfJson j with
    | some record => (notebooksOfJson rest).map ((k, record) :: ·)
    | none => none

namespace NotebookLibrary

/-- The state `_load_library` builds from a parsed snapshot:
`notebooks` from the key `notebooks` (default: empty dict) and
`active_notebook_id` from the key `active_notebook_id` (default: null). -/
def stateOfJson (data : Json) : Option LibState := do
  let nbs ← match data.get "notebooks" with
    | some (.obj fields) => notebooksOfJson fields
    | none => some []
    | _ => none
  let active ← match data.get "active_notebook_id" with
    | some (.str a) => some (some a)
    | some .null => some none
    | none => some none
    | _ => none
  pure ⟨nbs, active⟩

/-- `NotebookLibrary._load_library` when the library file exists:
`readResult = some data` is a successful `json.load`, `none` models any
exception while opening or parsing, which is caught, reported
(`⚠️ Error loading library`), and replaced by the empty library.  A
parsed snapshot whose shape lies outside the record model decodes to
`none` here (Python would store the raw values untyped; no claim
concerns such snapshots). -/
def load_library (readResult : Option Json) : Option LibState :=
  match readResult with
  | some data => stateOfJson data
  | none => some ⟨[], none⟩

end NotebookLibrary

/-! ## Lemmas about the URL parsing model -/

theorem dropWhile_head_false {α} {p : α → Bool} {l t : List α} {c : α}
    (h : l.dropWhile p = c :: t) : p c = false := by
  induction l with
  | nil => simp [List.dropWhile] at h
  | cons a l ih =>
    rw [List.dropWhile_cons] at h
    split at h
    · exact ih h
    · cases h
      simp_all

theorem prefix_append_left {α} (a : List α) {b c : List α} (h : b <+: c) :
    a ++ b <+: a ++ c := by
  obtain ⟨t, ht⟩ := h
  exact ⟨t, by rw [List.append_assoc, ht]⟩

theorem splitScheme_cases {url sch rest : Str} (h : splitScheme url = (sch, rest)) :
    (sch = [] ∧ rest = url) ∨
    ∃ raw, url = raw ++ ':' :: rest ∧ sch = raw.map Char.toLower := by
  unfold splitScheme at h
  rcases hd : url.dropWhile (fun c => decide (c ≠ ':')) with _ | ⟨c, r⟩ <;>
    simp only [hd] at h
  · injection h with h1 h2
    exact .inl ⟨h1.symm, h2.symm⟩
  · have hc : c = ':' := by simpa using dropWhile_head_false hd
    split at h
    · injection h with h1 h2
      refine .inr ⟨url.takeWhile (fun c => decide (c ≠ ':')), ?_, h1.symm⟩
      conv_lhs => rw [← List.takeWhile_append_dropWhile (p := fun c => decide (c ≠ ':')) (l := url)]
      rw [hd, hc, h2]
    · injection h with h1 h2
      exact .inl ⟨h1.symm, h2.symm⟩

theorem splitScheme_snd_sublist (url : Str) : (splitScheme url).2.Sublist url := by
  rcases h : splitScheme url with ⟨sch, rest⟩
  rcases splitScheme_cases h with ⟨_, h2⟩ | ⟨raw, hu, _⟩
  · simp [h2]
  · rw [hu]
    exact (List.sublist_cons_self ':' rest).trans (List.sublist_append_right raw _)

theorem splitNetlocStep_cases {rest nl after : Str}
    (h : splitNetlocStep rest = (nl, after)) :
    (nl = [] ∧ after = rest) ∨ rest = '/' :: '/' :: (nl ++ after) := by
  unfold splitNetlocStep at h
  split at h
  · injection h with h1 h2
    right
    have ht : rest.take 2 = ['/', '/'] := by assumption
    conv_lhs => rw [← List.take_append_drop 2 rest]
    rw [ht, ← h1, ← h2, List.takeWhile_append_dropWhile]
    rfl
  · injection h with h1 h2
    exact .inl ⟨h1.symm, h2.symm⟩

theorem splitNetlocStep_snd_sublist (rest : Str) :
    (splitNetlocStep rest).2.Sublist rest := by
  unfold splitNetlocStep
  split
  · exact ((List.dropWhile_sublist _).trans (List.drop_sublist 2 rest))
  · exact List.Sublist.refl rest

theorem splitFragStep_fst (s : Str) : (splitFragStep s).1 <+: s := by
  unfold splitFragStep
  split
  · exact List.takeWhile_prefix _
  · exact List.prefix_refl s

theorem splitQueryStep_fst (s : Str) : (splitQueryStep s).1 <+: s := by
  unfold splitQueryStep
  split
  · exact List.takeWhile_prefix _
  · exact List.prefix_refl s

theorem splitParams_fst (u : Str) : (splitParams u).1 <+: u := by
  simp only [splitParams]
  split
  · split
    · dsimp only
      have h1 : ((u.reverse.dropWhile (fun c => decide (c ≠ '/'))).reverse ++
          ((u.reverse.takeWhile (fun c => decide (c ≠ '/'))).reverse.takeWhile
            (fun c => decide (c ≠ ';')))) <+:
          ((u.reverse.dropWhile (fun c => decide (c ≠ '/'))).reverse ++
          (u.reverse.takeWhile (fun c => decide (c ≠ '/'))).reverse) :=
        prefix_append_left _ (List.takeWhile_prefix _)
      have hsplit : (u.reverse.dropWhile (fun c => decide (c ≠ '/'))).reverse ++
          (u.reverse.takeWhile (fun c => decide (c ≠ '/'))).reverse = u := by
        rw [← List.reverse_append, List.takeWhile_append_dropWhile, List.reverse_reverse]
      rw [hsplit] at h1
      exact h1
    · exact List.prefix_refl u
  · exact List.takeWhile_prefix _

theorem urlsplit_ok_fields {u : Str} {r : SplitResult} (h : urlsplit u = .ok r) :
    r = ⟨(splitScheme (urlClean u)).1,
         (splitNetlocStep (splitScheme (urlClean u)).2).1,
         (splitQueryStep (splitFragStep (splitNetlocStep (splitScheme (urlClean u)).2).2).1).1,
         (splitQueryStep (splitFragStep (splitNetlocStep (splitScheme (urlClean u)).2).2).1).2,
         (splitFragStep (splitNetlocStep (splitScheme (urlClean u)).2).2).2⟩ := by
  simp only [urlsplit] at h
  split at h
  · cases h
  · injection h with h
    exact h.symm

theorem urlsplit_path_sublist {u : Str} {r : SplitResult} (h : urlsplit u = .ok r) :
    r.path.Sublist (urlClean u) := by
  rw [urlsplit_ok_fields h]
  refine List.Sublist.trans ?_ (splitScheme_snd_sublist (urlClean u))
  refine List.Sublist.trans ?_ (splitNetlocStep_snd_sublist _)
  exact ((splitQueryStep_fst _).trans (splitFragStep_fst _)).sublist

theorem urlsplit_reconstruct {u : Str} {r : SplitResult} (h : urlsplit u = .ok r)
    (hs : r.scheme ≠ []) (hn : r.netloc ≠ []) :
    ∃ raw after, urlClean u = raw ++ ':' :: '/' :: '/' :: (r.netloc ++ after) ∧
      r.scheme = raw.map Char.toLower ∧ r.path <+: after := by
  have hr := urlsplit_ok_fields h
  rcases hsr : splitScheme (urlClean u) with ⟨sch, rest⟩
  rcases hnr : splitNetlocStep rest with ⟨nl, after⟩
  rw [hr] at hs hn ⊢
  simp only [hsr, hnr] at hs hn ⊢
  rcases splitScheme_cases hsr with ⟨h1, _⟩ | ⟨raw, hu, hsch⟩
  · exact absurd h1 hs
  · rcases splitNetlocStep_cases hnr with ⟨h1, _⟩ | hrest
    · exact absurd h1 hn
    · refine ⟨raw, after, ?_, hsch, ?_⟩
      · rw [hu, hrest]
      · exact (splitQueryStep_fst _).trans (splitFragStep_fst _)

theorem urlparse_ok_inv {u : Str} {r : ParseResult} (h : urlparse u = .ok r) :
    ∃ rs, urlsplit u = .ok rs ∧ r.scheme = rs.scheme ∧ r.netloc = rs.netloc ∧
      r.fragment = rs.fragment ∧ r.path <+: rs.path := by
  unfold urlparse at h
  rcases hs : urlsplit u with e | rs <;> simp only [hs] at h
  · cases h
  split at h
  · injection h with h
    subst h
    exact ⟨rs, rfl, rfl, rfl, rfl, splitParams_fst rs.path⟩
  · injection h with h
    subst h
    exact ⟨rs, rfl, rfl, rfl, rfl, List.prefix_refl rs.path⟩

theorem urlparse_path_clean {u : Str} {r : ParseResult} (h : urlparse u = .ok r)
    {c : Char} (hc : c ∈ r.path) : isUnsafeByte c = false := by
  obtain ⟨rs, hs, _, _, _, hpre⟩ := urlparse_ok_inv h
  have h1 : c ∈ urlClean u :=
    (hpre.sublist.trans (urlsplit_path_sublist hs)).subset hc
  have h2 := (List.mem_filter.mp h1).2
  simpa using h2

theorem dropLit_some {lit s rest : Str} (h : dropLit lit s = some rest) :
    s = lit ++ rest := by
  induction lit generalizing s with
  | nil => cases h; rfl
  | cons p ps ih =>
    cases s with
    | nil => cases h
    | cons c cs =>
      rw [dropLit] at h
      split at h
      · rename_i hc
        rw [List.cons_append, ← ih h, hc]
      · cases h

/-- On a path free of LF characters — as every path produced by the
parsing model is — the regex match coincides with the reading the spec gives
the pattern. -/
theorem rePathMatch_eq_spec {p : Str} (hnl : ∀ c ∈ p, c ≠ '\n') :
    rePathMatch p = specPathMatch p := by
  rcases hd : dropLit nbPathLit p with _ | rest
  · simp [rePathMatch, specPathMatch, hd]
  · simp only [rePathMatch, specPathMatch, hd]
    have hrest : p = nbPathLit ++ rest := dropLit_some hd
    have hnlr : ∀ c ∈ rest.dropWhile isIdChar, c ≠ '\n' := by
      intro c hc
      exact hnl c (hrest ▸ List.mem_append_right _ ((List.dropWhile_sublist _).subset hc))
    congr 1
    cases ht : rest.dropWhile isIdChar with
    | nil => rfl
    | cons c cs =>
      have hc : c ≠ '\n' := hnlr c (ht ▸ List.mem_cons_self c cs)
      have hcs : ∀ x ∈ cs, x ≠ '\n' := fun x hx => hnlr x (ht ▸ List.mem_cons_of_mem _ hx)
      simp only [matchTail]
      rw [if_neg (fun hand => hc hand.1)]
      by_cases hsl : c = '/'
      · subst hsl
        rw [if_pos rfl]
        have hall : cs.dropLast.all (fun x => decide (x ≠ '\n')) = true := by
          rw [List.all_eq_true]
          intro x hx
          simpa using hcs x ((List.dropLast_sublist cs).subset hx)
        rw [hall]
        simp
      · rw [if_neg hsl]
        simp [hsl]

/-- C1: `NotebookLMURLValidator.validate` succeeds with the normalised URL
exactly when the stripped input is non-empty, parses, has scheme exactly
`https`, authority exactly `notebooklm.google.com`, a path matching
`/notebook/[a-f0-9-]+(/.*)?` and no fragment, the checks firing in the
order emptiness, parseability, scheme, authority, path, fragment; a query
string never causes failure.  Stated as: the source transcription
`validateCore` is extensionally the spec-worded checker `validateSpec`
(whose error tag is the first failing check and which has no query
check). -/
theorem C1_validate_refines_spec (url : Str) :
    validateSpec url = (validateCore url).mapError Prod.fst := by
  simp only [validateSpec, validateCore]
  by_cases h0 : (url.isEmpty || (pyStrip url).isEmpty) = true
  · simp [h0, Except.mapError]
  · rw [if_neg h0, if_neg h0]
    rcases hp : urlparse (pyStrip url) with e | parsed <;> simp only [hp]
    · simp [Except.mapError]
    · have hnl : ∀ c ∈ parsed.path, c ≠ '\n' := by
        intro c hc heq
        have h2 := urlparse_path_clean hp hc
        rw [heq] at h2
        simp [isUnsafeByte] at h2
      rw [rePathMatch_eq_spec hnl]
      by_cases h1 : parsed.scheme ≠ httpsL
      · simp [h1, Except.mapError]
      · by_cases h2 : parsed.netloc ≠ allowedDomainL
        · simp [h1, h2, Except.mapError]
        · by_cases h3 : (!specPathMatch parsed.path) = true
          · simp [h1, h2, h3, Except.mapError]
          · by_cases h4 : parsed.fragment ≠ []
            · simp [h1, h2, h3, h4, Except.mapError]
            · simp [h1, h2, h3, h4, Except.mapError]

theorem validate_error_form (url : String) (e : PyErr)
    (h : NotebookLMURLValidator.validate url = .error e) :
    ∃ m, e = PyErr.urlValidationError m := by
  unfold NotebookLMURLValidator.validate at h
  rcases hc : validateCore url.toList with ⟨ck, m⟩ | l <;> simp only [hc] at h
  · injection h with h2
    exact ⟨m, h2.symm⟩
  · cases h

/-- C10: `is_valid` always returns a Boolean and never lets an exception
escape: every error raised inside `validate` is a `URLValidationError`,
and `is_valid` catches exactly that kind, returning `false`. -/
theorem C10_is_valid_never_raises (url : String) :
    (∃ b, NotebookLMURLValidator.is_valid url = .ok b) ∧
    (∀ e, NotebookLMURLValidator.validate url = .error e →
      ∃ m, e = PyErr.urlValidationError m) := by
  refine ⟨?_, fun e he => validate_error_form url e he⟩
  unfold NotebookLMURLValidator.is_valid
  rcases h : NotebookLMURLValidator.validate url with e | v
  · obtain ⟨m, rfl⟩ := validate_error_form url e h
    exact ⟨false, rfl⟩
  · exact ⟨true, rfl⟩

/-- Witness for C10 at the concrete input `"http://x"`, whose validation
fails on the scheme check. -/
theorem C10_witness :
    ∃ m, PyErr.urlValidationError "Only HTTPS URLs allowed. Got: http://" =
      PyErr.urlValidationError m :=
  (C10_is_valid_never_raises "http://x").2
    (PyErr.urlValidationError "Only HTTPS URLs allowed. Got: http://") rfl

/-! ## Claim C2: the literal-prefix characterisation of `is_valid` -/

/-- The cleaned form of the input actually inspected by the parser:
Python `str.strip` (performed by `validate`) followed by the `urlsplit`
sanitisation (leading control/space stripping, tab/CR/LF removal). -/
def cleanedInput (s : String) : Str := urlClean (pyStrip s.toList)

/-- Does a string start with a case variant of `https` followed by the
literal `://notebooklm.google.com/notebook/`? -/
def hasHttpsNotebookShape (s : Str) : Bool :=
  decide ((s.take 5).map Char.toLower = httpsL) &&
  "://notebooklm.google.com/notebook/".toList.isPrefixOf (s.drop 5)

theorem validateCore_ok_inv {u n : Str} (h : validateCore u = .ok n) :
    ∃ parsed, urlparse (pyStrip u) = .ok parsed ∧ parsed.scheme = httpsL ∧
      parsed.netloc = allowedDomainL ∧ rePathMatch parsed.path = true ∧
      parsed.fragment = [] := by
  simp only [validateCore] at h
  split at h
  · cases h
  · rcases hp : urlparse (pyStrip u) with e | parsed <;> simp only [hp] at h
    · cases h
    · refine ⟨parsed, rfl, ?_⟩
      split at h
      · cases h
      · split at h
        · cases h
        · split at h
          · cases h
          · split at h
            · cases h
            · rename_i h1 h2 h3 h4
              refine ⟨not_not.mp h1, not_not.mp h2, ?_, not_not.mp h4⟩
              rw [Bool.not_eq_true] at h3
              simpa using h3

theorem rePathMatch_true_shape {p : Str} (h : rePathMatch p = true) :
    ∃ t, p = nbPathLit ++ t := by
  unfold rePathMatch at h
  rcases hd : dropLit nbPathLit p with _ | rest <;> simp only [hd] at h
  · cases h
  · exact ⟨rest, dropLit_some hd⟩

/-- Successful validation forces the cleaned input to start with a case
variant of `https` and the literal `://notebooklm.google.com/notebook/`. -/
theorem validate_ok_shape {s v : String}
    (h : NotebookLMURLValidator.validate s = .ok v) :
    hasHttpsNotebookShape (cleanedInput s) = true := by
  unfold NotebookLMURLValidator.validate at h
  rcases hc : validateCore s.toList with e | l <;> simp only [hc] at h
  · cases h
  obtain ⟨parsed, hp, hsch, hnet, hpath, _⟩ := validateCore_ok_inv hc
  obtain ⟨rs, hs, hsch2, hnet2, _, hpre⟩ := urlparse_ok_inv hp
  have hs_ne : rs.scheme ≠ [] := by rw [← hsch2, hsch]; decide
  have hn_ne : rs.netloc ≠ [] := by rw [← hnet2, hnet]; decide
  obtain ⟨raw, after, hclean, hraw, hpre2⟩ := urlsplit_reconstruct hs hs_ne hn_ne
  obtain ⟨t0, hsplit⟩ := rePathMatch_true_shape hpath
  have hnb : nbPathLit <+: after := by
    refine List.IsPrefix.trans ?_ (hpre.trans hpre2)
    exact ⟨t0, hsplit.symm⟩
  obtain ⟨t, hafter⟩ := hnb
  have hrawlen : raw.length = 5 := by
    have := congrArg List.length hraw
    rw [List.length_map] at this
    rw [← hsch2, hsch] at this
    simpa using this.symm
  have hcleaned : cleanedInput s =
      raw ++ "://notebooklm.google.com/notebook/".toList ++ t := by
    unfold cleanedInput
    rw [hclean, ← hnet2, hnet, ← hafter]
    simp [allowedDomainL, nbPathLit]
  unfold hasHttpsNotebookShape
  rw [hcleaned]
  rw [Bool.and_eq_true]
  constructor
  · rw [List.append_assoc, ← hrawlen, List.take_left, hraw.symm, ← hsch2, hsch]
    simp
  · rw [List.append_assoc, ← hrawlen, List.drop_left]
    exact List.isPrefixOf_iff_prefix.mpr ⟨t, rfl⟩

/-- C2 counterexample: `" https://notebooklm.google.com/notebook/abc"`
(leading space) does not start with the literal prefix
`https://notebooklm.google.com/notebook/`, yet `is_valid` returns true,
because `validate` strips surrounding whitespace first. -/
theorem C2_counterexample :
    "https://notebooklm.google.com/notebook/".toList.isPrefixOf
      " https://notebooklm.google.com/notebook/abc".toList = false ∧
    NotebookLMURLValidator.is_valid " https://notebooklm.google.com/notebook/abc" =
      .ok true := by
  constructor
  · rfl
  · rfl

/-- C2 (amended): for every string whose cleaned form (whitespace
stripped, leading control characters removed, tab/CR/LF deleted) does not
start with a case variant of `https` followed by the literal
`://notebooklm.google.com/notebook/`, `is_valid` returns false. -/
theorem C2_amended_only_notebook_urls (s : String)
    (h : hasHttpsNotebookShape (cleanedInput s) = false) :
    NotebookLMURLValidator.is_valid s = .ok false := by
  unfold NotebookLMURLValidator.is_valid
  rcases hv : NotebookLMURLValidator.validate s with e | v
  · obtain ⟨m, rfl⟩ := validate_error_form s e hv
    rfl
  · rw [validate_ok_shape hv] at h
    cases h

/-- Witness for the amended C2 at the concrete input
`"http://example.com"`. -/
theorem C2_witness :
    NotebookLMURLValidator.is_valid "http://example.com" = .ok false :=
  C2_amended_only_notebook_urls "http://example.com" rfl

/-! ## Lemmas about the modelled dict -/

theorem dictGet_eq_some_mem {m : NotebookMap} {k : String} {nb : Notebook}
    (h : dictGet m k = some nb) : (k, nb) ∈ m := by
  induction m with
  | nil => cases h
  | cons p rest ih =>
    rw [dictGet] at h
    split at h
    · injection h with h
      rename_i hp
      exact List.mem_cons.mpr (.inl (by rw [← hp, ← h]))
    · exact List.mem_cons.mpr (.inr (ih h))

theorem dictMem_of_mem {m : NotebookMap} {k : String} {nb : Notebook}
    (h : (k, nb) ∈ m) : dictMem m k = true := by
  induction m with
  | nil => cases h
  | cons p rest ih =>
    rw [dictMem, Bool.or_eq_true]
    rcases List.mem_cons.mp h with he | hm
    · exact .inl (by rw [← he]; simp)
    · exact .inr (ih hm)

theorem dictMem_eq_isSome (m : NotebookMap) (k : String) :
    dictMem m k = (dictGet m k).isSome := by
  induction m with
  | nil => rfl
  | cons p rest ih =>
    rw [dictMem, dictGet]
    by_cases hp : p.1 = k
    · simp [hp]
    · simp [hp, ih]

theorem dictGet_dictReplace_self {k : String} (v : Notebook) (m : NotebookMap)
    (h : dictMem m k = true) : dictGet (dictReplace m k v) k = some v := by
  induction m with
  | nil => cases h
  | cons p rest ih =>
    rw [dictMem, Bool.or_eq_true] at h
    rw [dictReplace]
    by_cases hp : p.1 = k
    · rw [if_pos hp, dictGet, if_pos rfl]
    · rw [if_neg hp, dictGet, if_neg hp]
      exact ih (h.resolve_left (by simpa using hp))

theorem dictGet_dictSet_self {m : NotebookMap} {k : String} (v : Notebook)
    (h : dictMem m k = true) : dictGet (dictSet m k v) k = some v := by
  rw [dictSet, if_pos h]
  exact dictGet_dictReplace_self v m h

theorem dictGet_dictReplace_ne {k k' : String} (v : Notebook) (m : NotebookMap)
    (h : k' ≠ k) : dictGet (dictReplace m k v) k' = dictGet m k' := by
  induction m with
  | nil => rfl
  | cons p rest ih =>
    rw [dictReplace]
    by_cases hp : p.1 = k
    · rw [if_pos hp, dictGet, if_neg (fun he => h (he.symm)), dictGet,
        if_neg (fun he => h (hp ▸ he).symm)]
      exact ih
    · rw [if_neg hp, dictGet, dictGet]
      split
      · rfl
      · exact ih

theorem dictGet_append_ne {k k' : String} (v : Notebook) (m : NotebookMap)
    (h : k' ≠ k) : dictGet (m ++ [(k, v)]) k' = dictGet m k' := by
  induction m with
  | nil =>
    have h' : ¬((k, v).1 = k') := fun he => h he.symm
    simp only [List.nil_append, dictGet]
    rw [if_neg h']
  | cons p rest ih =>
    rw [List.cons_append, dictGet, dictGet]
    split
    · rfl
    · exact ih

theorem dictGet_dictSet_ne {m : NotebookMap} {k k' : String} (v : Notebook)
    (h : k' ≠ k) : dictGet (dictSet m k v) k' = dictGet m k' := by
  rw [dictSet]
  split
  · exact dictGet_dictReplace_ne v m h
  · exact dictGet_append_ne v m h

theorem dictMem_append_self (m : NotebookMap) (k : String) (v : Notebook) :
    dictMem (m ++ [(k, v)]) k = true := by
  induction m with
  | nil => simp [dictMem]
  | cons p rest ih =>
    rw [List.cons_append, dictMem, Bool.or_eq_true]
    exact .inr ih

theorem dictMem_dictSet_self {m : NotebookMap} {k : String} (v : Notebook) :
    dictMem (dictSet m k v) k = true := by
  rw [dictSet]
  split
  · rw [dictMem_eq_isSome, dictGet_dictReplace_self v m (by assumption)]
    rfl
  · exact dictMem_append_self m k v

theorem dictMem_dictSet_of {m : NotebookMap} {k a : String} (v : Notebook)
    (h : dictMem m a = true) : dictMem (dictSet m k v) a = true := by
  by_cases hk : a = k
  · rw [hk]; exact dictMem_dictSet_self v
  · rw [dictMem_eq_isSome, dictGet_dictSet_ne v hk, ← dictMem_eq_isSome]
    exact h

theorem dictGet_dictDel_self (m : NotebookMap) (k : String) :
    dictGet (dictDel m k) k = none := by
  induction m with
  | nil => rfl
  | cons p rest ih =>
    rw [dictDel]
    split
    · exact ih
    · rename_i hp
      rw [dictGet, if_neg hp]
      exact ih

theorem dictGet_dictDel_ne (m : NotebookMap) {k k' : String} (h : k' ≠ k) :
    dictGet (dictDel m k) k' = dictGet m k' := by
  induction m with
  | nil => rfl
  | cons p rest ih =>
    rw [dictDel]
    split
    · rename_i hp
      rw [dictGet, if_neg (fun he => h ((hp ▸ he : (k : String) = k')).symm)]
      exact ih
    · rw [dictGet, dictGet]
      split
      · rfl
      · exact ih

theorem dictMem_dictDel_of {m : NotebookMap} {k a : String}
    (h : dictMem m a = true) (hne : a ≠ k) : dictMem (dictDel m k) a = true := by
  rw [dictMem_eq_isSome, dictGet_dictDel_ne m hne, ← dictMem_eq_isSome]
  exact h

theorem mem_dictDel {m : NotebookMap} {k : String} {p : String × Notebook}
    (h : p ∈ dictDel m k) : p ∈ m := by
  induction m with
  | nil => cases h
  | cons q rest ih =>
    rw [dictDel] at h
    split at h
    · exact List.mem_cons.mpr (.inr (ih h))
    · rcases List.mem_cons.mp h with he | hm
      · exact List.mem_cons.mpr (.inl he)
      · exact List.mem_cons.mpr (.inr (ih hm))

theorem dictMem_of_head_key {m : NotebookMap} {k : String} {t : List String}
    (h : m.map Prod.fst = k :: t) : dictMem m k = true := by
  cases m with
  | nil => cases h
  | cons p rest =>
    injection h with h1 _
    rw [dictMem, Bool.or_eq_true]
    exact .inl (by simp [h1])

/-! ## The library invariants (claim C4) -/

/-- The two invariants of spec section 3: every key equals the `id` field
of its record, and
the active id, when set, is a present key. -/
def invB (st : LibState) : Bool :=
  st.notebooks.all (fun p => decide (p.2.id = p.1)) &&
  (match st.active_notebook_id with
   | none => true
   | some a => dictMem st.notebooks a)

theorem invB_allIds {st : LibState} (h : invB st = true) :
    ∀ p ∈ st.notebooks, p.2.id = p.1 := by
  rw [invB, Bool.and_eq_true] at h
  intro p hp
  simpa using List.all_eq_true.mp h.1 p hp

theorem invB_active {st : LibState} (h : invB st = true) {a : String}
    (ha : st.active_notebook_id = some a) : dictMem st.notebooks a = true := by
  rw [invB, Bool.and_eq_true] at h
  have h2 := h.2
  rw [ha] at h2
  exact h2

theorem invB_mk {m : NotebookMap} {act : Option String}
    (h1 : ∀ p ∈ m, p.2.id = p.1)
    (h2 : ∀ a, act = some a → dictMem m a = true) :
    invB ⟨m, act⟩ = true := by
  rw [invB, Bool.and_eq_true]
  refine ⟨List.all_eq_true.mpr fun p hp => by simpa using h1 p hp, ?_⟩
  cases act with
  | none => rfl
  | some a => exact h2 a rfl

theorem mem_dictReplace {m : NotebookMap} {k : String} {v : Notebook}
    {p : String × Notebook} (h : p ∈ dictReplace m k v) : p = (k, v) ∨ p ∈ m := by
  induction m with
  | nil => cases h
  | cons q rest ih =>
    rw [dictReplace] at h
    split at h <;> rcases List.mem_cons.mp h with he | hm
    · exact .inl he
    · exact (ih hm).imp id (List.mem_cons.mpr ∘ .inr)
    · exact .inr (List.mem_cons.mpr (.inl he))
    · exact (ih hm).imp id (List.mem_cons.mpr ∘ .inr)

theorem allIds_dictSet {m : NotebookMap} {k : String} {v : Notebook}
    (h : ∀ p ∈ m, p.2.id = p.1) (hv : v.id = k) :
    ∀ p ∈ dictSet m k v, p.2.id = p.1 := by
  intro p hp
  unfold dictSet at hp
  split at hp
  · rcases mem_dictReplace hp with rfl | hm
    · exact hv
    · exact h p hm
  · rcases List.mem_append.mp hp with hp1 | hp1
    · exact h p hp1
    · rcases List.mem_cons.mp hp1 with rfl | hp2
      · exact hv
      · cases hp2

theorem allIds_dictDel {m : NotebookMap} {k : String}
    (h : ∀ p ∈ m, p.2.id = p.1) : ∀ p ∈ dictDel m k, p.2.id = p.1 :=
  fun p hp => h p (mem_dictDel hp)

theorem invB_add (st : LibState) (url name d : String) (topics : List String)
    (ct uc tg : Option (List String)) (now : String) (h : invB st = true) :
    invB (NotebookLibrary.add_notebook st url name d topics ct uc tg now).2 = true := by
  simp only [NotebookLibrary.add_notebook]
  rcases hv : NotebookLMURLValidator.validate url with e | vu
  · cases e <;> exact h
  · dsimp only
    split
    · exact h
    · apply invB_mk
      · exact allIds_dictSet (invB_allIds h) rfl
      · intro a ha
        split at ha
        · injection ha with ha
          rw [← ha]
          exact dictMem_dictSet_self _
        · exact dictMem_dictSet_of _ (invB_active h ha)

theorem invB_update (st : LibState) (id : String) (name d : Option String)
    (topics ct uc tg : Option (List String)) (url : Option String) (now : String)
    (h : invB st = true) :
    invB (NotebookLibrary.update_notebook st id name d topics ct uc tg url now).2 = true := by
  simp only [NotebookLibrary.update_notebook]
  rcases hg : dictGet st.notebooks id with _ | nb0 <;> simp only [hg]
  · exact h
  · have hid : nb0.id = id := invB_allIds h _ (dictGet_eq_some_mem hg)
    rcases url with _ | u
    · apply invB_mk
      · exact allIds_dictSet (invB_allIds h) hid
      · exact fun a ha => dictMem_dictSet_of _ (invB_active h ha)
    · rcases hvu : NotebookLMURLValidator.validate u with e | vu <;> simp only [hvu]
      · cases e <;> exact h
      · apply invB_mk
        · exact allIds_dictSet (invB_allIds h) hid
        · exact fun a ha => dictMem_dictSet_of _ (invB_active h ha)

theorem invB_remove (st : LibState) (id : String) (h : invB st = true) :
    invB (NotebookLibrary.remove_notebook st id).2 = true := by
  simp only [NotebookLibrary.remove_notebook]
  split
  · apply invB_mk
    · exact allIds_dictDel (invB_allIds h)
    · intro a ha
      split at ha
      · rcases hm : (dictDel st.notebooks id).map Prod.fst with _ | ⟨k, t⟩ <;>
          rw [hm] at ha
        · cases ha
        · injection ha with ha
          rw [← ha]
          exact dictMem_of_head_key hm
      · rename_i hact
        have hne : a ≠ id := fun he => hact (he ▸ ha)
        exact dictMem_dictDel_of (invB_active h ha) hne
  · exact h

theorem invB_select (st : LibState) (id : String) (h : invB st = true) :
    invB (NotebookLibrary.select_notebook st id).2 = true := by
  simp only [NotebookLibrary.select_notebook]
  split
  · rcases hg : dictGet st.notebooks id with _ | nb <;> simp only [hg]
    · exact h
    · apply invB_mk
      · exact invB_allIds h
      · intro a ha
        injection ha with ha
        rw [← ha]
        assumption
  · exact h

theorem invB_increment (st : LibState) (id now : String) (h : invB st = true) :
    invB (NotebookLibrary.increment_use_count st id now).2 = true := by
  simp only [NotebookLibrary.increment_use_count]
  rcases hg : dictGet st.notebooks id with _ | nb <;> simp only [hg]
  · exact h
  · have hid : nb.id = id := invB_allIds h _ (dictGet_eq_some_mem hg)
    apply invB_mk
    · exact allIds_dictSet (invB_allIds h) hid
    · exact fun a ha => dictMem_dictSet_of _ (invB_active h ha)

/-- C4: every `NotebookLibrary` operation (add, update, remove, select,
increment_use) preserves the invariants that each key of `notebooks`
equals the `id` field of the record stored under it and that
`active_notebook_id`, when
non-null, is a present key. -/
theorem C4_invariants_preserved :
    (∀ st url name d topics ct uc tg now, invB st = true →
      invB (NotebookLibrary.add_notebook st url name d topics ct uc tg now).2 = true) ∧
    (∀ st id name d topics ct uc tg url now, invB st = true →
      invB (NotebookLibrary.update_notebook st id name d topics ct uc tg url now).2 = true) ∧
    (∀ st id, invB st = true →
      invB (NotebookLibrary.remove_notebook st id).2 = true) ∧
    (∀ st id, invB st = true →
      invB (NotebookLibrary.select_notebook st id).2 = true) ∧
    (∀ st id now, invB st = true →
      invB (NotebookLibrary.increment_use_count st id now).2 = true) :=
  ⟨invB_add, invB_update, invB_remove, invB_select, invB_increment⟩

/-- Witness for C4: removing the active notebook from a concrete
one-notebook library keeps the invariants. -/
theorem C4_witness :
    invB (NotebookLibrary.remove_notebook
      ⟨[("x", ⟨"x", "u", "X", "d", [], [], [], [], "t", "t", 0, none⟩)],
       some "x"⟩ "x").2 = true :=
  C4_invariants_preserved.2.2.1
    ⟨[("x", ⟨"x", "u", "X", "d", [], [], [], [], "t", "t", 0, none⟩)], some "x"⟩
    "x" (by decide)

/-! ## Claims C5 and C6 -/

theorem add_duplicate_helper (st : LibState) (url name d : String)
    (topics : List String) (ct uc tg : Option (List String)) (now : String)
    (hmem : dictMem st.notebooks (NotebookLibrary.deriveId name) = true) :
    (NotebookLibrary.add_notebook st url name d topics ct uc tg now).1.isOk = false ∧
    (NotebookLibrary.add_notebook st url name d topics ct uc tg now).2 = st := by
  unfold NotebookLibrary.add_notebook
  rcases hv : NotebookLMURLValidator.validate url with e | vu
  · cases e <;> exact ⟨rfl, rfl⟩
  · dsimp only
    rw [if_pos hmem]
    exact ⟨rfl, rfl⟩

theorem add_empty_inv {url name d : String} {topics : List String}
    {ct uc tg : Option (List String)} {now : String} {nb : Notebook} {st1 : LibState}
    (h : NotebookLibrary.add_notebook ⟨[], none⟩ url name d topics ct uc tg now =
      (.ok nb, st1)) :
    st1.notebooks = [(NotebookLibrary.deriveId name, nb)] ∧
    st1.active_notebook_id = some (NotebookLibrary.deriveId name) := by
  unfold NotebookLibrary.add_notebook at h
  rcases hv : NotebookLMURLValidator.validate url with e | vu <;> rw [hv] at h
  · cases e <;> simp at h
  · injection h with h1 h2
    injection h1 with h1
    rw [← h2]
    exact ⟨by rw [h1]; rfl, rfl⟩

/-- C5: an `add` whose name derives to an already-present id fails and
leaves the state exactly as before; in particular, after a successful
first add into an empty library, a second add whose name normalises to
the same id fails and leaves only the first record. -/
theorem C5_duplicate_add_fails :
    (∀ st url name d topics ct uc tg now,
      dictMem st.notebooks (NotebookLibrary.deriveId name) = true →
      (NotebookLibrary.add_notebook st url name d topics ct uc tg now).1.isOk = false ∧
      (NotebookLibrary.add_notebook st url name d topics ct uc tg now).2 = st) ∧
    (∀ url1 name1 d1 t1 ct1 uc1 tg1 now1 url2 name2 d2 t2 ct2 uc2 tg2 now2 nb st1,
      NotebookLibrary.deriveId name2 = NotebookLibrary.deriveId name1 →
      NotebookLibrary.add_notebook ⟨[], none⟩ url1 name1 d1 t1 ct1 uc1 tg1 now1 =
        (.ok nb, st1) →
      (NotebookLibrary.add_notebook st1 url2 name2 d2 t2 ct2 uc2 tg2 now2).1.isOk = false ∧
      (NotebookLibrary.add_notebook st1 url2 name2 d2 t2 ct2 uc2 tg2 now2).2 = st1 ∧
      st1.notebooks.map Prod.fst = [NotebookLibrary.deriveId name1]) := by
  refine ⟨add_duplicate_helper, ?_⟩
  intro url1 name1 d1 t1 ct1 uc1 tg1 now1 url2 name2 d2 t2 ct2 uc2 tg2 now2 nb st1
    heq hadd
  obtain ⟨hn, _⟩ := add_empty_inv hadd
  have hmem : dictMem st1.notebooks (NotebookLibrary.deriveId name2) = true := by
    rw [heq, hn]
    simp [dictMem]
  obtain ⟨h1, h2⟩ := add_duplicate_helper st1 url2 name2 d2 t2 ct2 uc2 tg2 now2 hmem
  exact ⟨h1, h2, by rw [hn]; rfl⟩

set_option maxRecDepth 100000 in
/-- Witness for C5: `"My Notes"` then `"my_notes"`, both deriving the id
`my-notes`. -/
theorem C5_witness :
    (NotebookLibrary.add_notebook
      ⟨[("my-notes", ⟨"my-notes", "https://notebooklm.google.com/notebook/abc",
        "My Notes", "d1", [], [], [], [], "t1", "t1", 0, none⟩)], some "my-notes"⟩
      "https://notebooklm.google.com/notebook/abc" "my_notes" "d2" [] none none none
      "t2").1.isOk = false ∧
    (NotebookLibrary.add_notebook
      ⟨[("my-notes", ⟨"my-notes", "https://notebooklm.google.com/notebook/abc",
        "My Notes", "d1", [], [], [], [], "t1", "t1", 0, none⟩)], some "my-notes"⟩
      "https://notebooklm.google.com/notebook/abc" "my_notes" "d2" [] none none none
      "t2").2 =
      ⟨[("my-notes", ⟨"my-notes", "https://notebooklm.google.com/notebook/abc",
        "My Notes", "d1", [], [], [], [], "t1", "t1", 0, none⟩)], some "my-notes"⟩ ∧
    (⟨[("my-notes", ⟨"my-notes", "https://notebooklm.google.com/notebook/abc",
        "My Notes", "d1", [], [], [], [], "t1", "t1", 0, none⟩)], some "my-notes"⟩ :
      LibState).notebooks.map Prod.fst = ["my-notes"] :=
  C5_duplicate_add_fails.2
    "https://notebooklm.google.com/notebook/abc" "My Notes" "d1" [] none none none "t1"
    "https://notebooklm.google.com/notebook/abc" "my_notes" "d2" [] none none none "t2"
    _ _ rfl rfl

/-- C6: removing an absent id returns false and changes nothing; removing
a present id returns true, deletes exactly that record, and, when the
removed record was active, moves `active_notebook_id` to the first
remaining key (null when none remain), otherwise leaves it alone. -/
theorem C6_remove_semantics (st : LibState) (id : String) :
    (dictMem st.notebooks id = false →
      NotebookLibrary.remove_notebook st id = (false, st)) ∧
    (dictMem st.notebooks id = true →
      (NotebookLibrary.remove_notebook st id).1 = true ∧
      dictGet (NotebookLibrary.remove_notebook st id).2.notebooks id = none ∧
      (∀ k, k ≠ id →
        dictGet (NotebookLibrary.remove_notebook st id).2.notebooks k =
          dictGet st.notebooks k) ∧
      (st.active_notebook_id = some id →
        (NotebookLibrary.remove_notebook st id).2.active_notebook_id =
          ((dictDel st.notebooks id).map Prod.fst).head?) ∧
      (st.active_notebook_id ≠ some id →
        (NotebookLibrary.remove_notebook st id).2.active_notebook_id =
          st.active_notebook_id)) := by
  constructor
  · intro h
    unfold NotebookLibrary.remove_notebook
    rw [if_neg (by simp [h])]
  · intro h
    unfold NotebookLibrary.remove_notebook
    rw [if_pos h]
    refine ⟨rfl, dictGet_dictDel_self _ _, fun k hk => dictGet_dictDel_ne _ hk, ?_, ?_⟩
    · intro ha
      dsimp only
      rw [if_pos ha]
      rcases hm : (dictDel st.notebooks id).map Prod.fst with _ | ⟨k, t⟩ <;> rfl
    · intro ha
      dsimp only
      rw [if_neg ha]

/-- Witness for C6: removing the only, active record of a concrete
library. -/
theorem C6_witness :
    (NotebookLibrary.remove_notebook
      ⟨[("x", ⟨"x", "u", "X", "d", [], [], [], [], "t", "t", 0, none⟩)],
       some "x"⟩ "x").1 = true ∧
    dictGet (NotebookLibrary.remove_notebook
      ⟨[("x", ⟨"x", "u", "X", "d", [], [], [], [], "t", "t", 0, none⟩)],
       some "x"⟩ "x").2.notebooks "x" = none ∧
    (NotebookLibrary.remove_notebook
      ⟨[("x", ⟨"x", "u", "X", "d", [], [], [], [], "t", "t", 0, none⟩)],
       some "x"⟩ "x").2.active_notebook_id =
      ((dictDel (⟨[("x", ⟨"x", "u", "X", "d", [], [], [], [], "t", "t", 0, none⟩)],
        some "x"⟩ : LibState).notebooks "x").map Prod.fst).head? := by
  have h := (C6_remove_semantics
    ⟨[("x", ⟨"x", "u", "X", "d", [], [], [], [], "t", "t", 0, none⟩)], some "x"⟩
    "x").2 (by decide)
  exact ⟨h.1, h.2.1, h.2.2.2.1 rfl⟩

/-! ## Claim C7 -/

/-- C7: updating an existing id replaces exactly the supplied fields,
keeps every omitted field, refreshes `updated_at`, never changes the
`id` field of the record or its key, and — when a supplied url fails
validation —
fails with the whole state untouched. -/
theorem C7_update_semantics (st : LibState) (id : String) (name d : Option String)
    (topics ct uc tg : Option (List String)) (now : String) (nb : Notebook)
    (hget : dictGet st.notebooks id = some nb) :
    (∀ u m, NotebookLMURLValidator.validate u = .error (.urlValidationError m) →
      NotebookLibrary.update_notebook st id name d topics ct uc tg (some u) now =
        (.error (.valueError ("Invalid NotebookLM URL: " ++ m)), st)) ∧
    (NotebookLibrary.update_notebook st id name d topics ct uc tg none now).1.isOk
      = true ∧
    (∀ nb2 st2,
      NotebookLibrary.update_notebook st id name d topics ct uc tg none now =
        (.ok nb2, st2) →
      nb2.id = nb.id ∧ nb2.url = nb.url ∧ nb2.created_at = nb.created_at ∧
      nb2.use_count = nb.use_count ∧ nb2.last_used = nb.last_used ∧
      nb2.name = name.getD nb.name ∧ nb2.description = d.getD nb.description ∧
      nb2.topics = topics.getD nb.topics ∧
      nb2.content_types = ct.getD nb.content_types ∧
      nb2.use_cases = uc.getD nb.use_cases ∧ nb2.tags = tg.getD nb.tags ∧
      nb2.updated_at = now ∧
      dictGet st2.notebooks id = some nb2 ∧
      (∀ k, k ≠ id → dictGet st2.notebooks k = dictGet st.notebooks k) ∧
      st2.active_notebook_id = st.active_notebook_id) ∧
    (∀ u v nb2 st2, NotebookLMURLValidator.validate u = .ok v →
      NotebookLibrary.update_notebook st id name d topics ct uc tg (some u) now =
        (.ok nb2, st2) →
      nb2.url = v ∧ nb2.id = nb.id ∧ nb2.created_at = nb.created_at ∧
      nb2.use_count = nb.use_count ∧ nb2.last_used = nb.last_used ∧
      nb2.name = name.getD nb.name ∧ nb2.description = d.getD nb.description ∧
      nb2.topics = topics.getD nb.topics ∧
      nb2.content_types = ct.getD nb.content_types ∧
      nb2.use_cases = uc.getD nb.use_cases ∧ nb2.tags = tg.getD nb.tags ∧
      nb2.updated_at = now ∧
      dictGet st2.notebooks id = some nb2 ∧
      (∀ k, k ≠ id → dictGet st2.notebooks k = dictGet st.notebooks k) ∧
      st2.active_notebook_id = st.active_notebook_id) := by
  have hmem : dictMem st.notebooks id = true := by
    rw [dictMem_eq_isSome, hget]
    rfl
  refine ⟨?_, ?_, ?_, ?_⟩
  · intro u m huv
    simp only [NotebookLibrary.update_notebook, hget, huv]
  · simp only [NotebookLibrary.update_notebook, hget]
    rfl
  · intro nb2 st2 hup
    simp only [NotebookLibrary.update_notebook, hget] at hup
    injection hup with h1 h2
    injection h1 with h1
    subst h1
    subst h2
    refine ⟨rfl, rfl, rfl, rfl, rfl, rfl, rfl, rfl, rfl, rfl, rfl, rfl,
      dictGet_dictSet_self _ hmem, fun k hk => dictGet_dictSet_ne _ hk, rfl⟩
  · intro u v nb2 st2 hv hup
    simp only [NotebookLibrary.update_notebook, hget, hv] at hup
    injection hup with h1 h2
    injection h1 with h1
    subst h1
    subst h2
    refine ⟨rfl, rfl, rfl, rfl, rfl, rfl, rfl, rfl, rfl, rfl, rfl, rfl,
      dictGet_dictSet_self _ hmem, fun k hk => dictGet_dictSet_ne _ hk, rfl⟩

/-- Witness for C7: updating with an invalid url on a concrete library
fails and leaves the state untouched. -/
theorem C7_witness :
    NotebookLibrary.update_notebook
      ⟨[("x", ⟨"x", "u", "X", "d", [], [], [], [], "t", "t", 0, none⟩)], some "x"⟩
      "x" (some "N") none none none none none (some "http://x") "t9" =
      (.error (.valueError
        ("Invalid NotebookLM URL: " ++ "Only HTTPS URLs allowed. Got: http://")),
       ⟨[("x", ⟨"x", "u", "X", "d", [], [], [], [], "t", "t", 0, none⟩)], some "x"⟩) :=
  (C7_update_semantics
    ⟨[("x", ⟨"x", "u", "X", "d", [], [], [], [], "t", "t", 0, none⟩)], some "x"⟩
    "x" (some "N") none none none none none "t9"
    ⟨"x", "u", "X", "d", [], [], [], [], "t", "t", 0, none⟩ rfl).1
    "http://x" "Only HTTPS URLs allowed. Got: http://" rfl

/-! ## Claim C9 -/

/-- Calling `increment_use_count` once per timestamp in `ts`, threading
the state, stopping at the first failure. -/
def incrementN : LibState → String → List String → Except PyErr LibState
  | st, _, [] => .ok st
  | st, id, t :: rest =>
    match NotebookLibrary.increment_use_count st id t with
    | (.ok _, st1) => incrementN st1 id rest
    | (.error e, _) => .error e

theorem incrementN_ok {id : String} (ts : List String) :
    ∀ st nb, dictGet st.notebooks id = some nb →
    ∃ st2, incrementN st id ts = .ok st2 ∧
      dictGet st2.notebooks id = some
        { nb with
          use_count := nb.use_count + ts.length,
          last_used := (match ts.getLast? with
            | none => nb.last_used
            | some t => some t) } := by
  induction ts with
  | nil =>
    intro st nb h
    refine ⟨st, rfl, ?_⟩
    have he : ({ nb with
        use_count := nb.use_count + ([] : List String).length,
        last_used := (match ([] : List String).getLast? with
          | none => nb.last_used
          | some t => some t) } : Notebook) = nb := by
      cases nb
      simp
    rw [he]
    exact h
  | cons t rest ih =>
    intro st nb h
    have hmem : dictMem st.notebooks id = true := by
      rw [dictMem_eq_isSome, h]
      rfl
    have hstep : dictGet (NotebookLibrary.increment_use_count st id t).2.notebooks id =
        some { nb with use_count := nb.use_count + 1, last_used := some t } := by
      simp only [NotebookLibrary.increment_use_count, h]
      exact dictGet_dictSet_self _ hmem
    obtain ⟨st2, hrun, hget2⟩ := ih _ _ hstep
    refine ⟨st2, ?_, ?_⟩
    · rw [incrementN]
      simp only [NotebookLibrary.increment_use_count, h]
      simp only [NotebookLibrary.increment_use_count, h] at hrun
      exact hrun
    · rw [hget2]
      congr 1
      cases rest with
      | nil => simp [Nat.add_comm]
      | cons r rrest =>
        rcases hlast : (r :: rrest).getLast? with _ | tl
        · exact absurd (List.getLast?_eq_none_iff.mp hlast) (by simp)
        · simp [List.getLast?_cons_cons, hlast, Nat.add_assoc, Nat.add_comm]

/-- C9: starting from a record with `use_count = 0`, each
`increment_use_count` call adds exactly 1 and stamps `last_used`; N
successive successful calls leave `use_count = N` and `last_used` equal
to the timestamp of the last call. -/
theorem C9_increment_counts (st : LibState) (id : String) (nb : Notebook)
    (hget : dictGet st.notebooks id = some nb) (h0 : nb.use_count = 0) :
    (∀ t, (NotebookLibrary.increment_use_count st id t).1 =
      .ok { nb with use_count := nb.use_count + 1, last_used := some t }) ∧
    (∀ ts : List String, ts ≠ [] →
      ∃ st2 nb2, incrementN st id ts = .ok st2 ∧
        dictGet st2.notebooks id = some nb2 ∧
        nb2.use_count = ts.length ∧ nb2.last_used = ts.getLast?) := by
  constructor
  · intro t
    simp only [NotebookLibrary.increment_use_count, hget]
  · intro ts hts
    obtain ⟨st2, hrun, hget2⟩ := incrementN_ok ts st nb hget
    rcases hlast : ts.getLast? with _ | tl
    · exact absurd (List.getLast?_eq_none_iff.mp hlast) hts
    · rw [hlast] at hget2
      refine ⟨st2, _, hrun, hget2, ?_, ?_⟩
      · simp [h0]
      · simp [hlast]

/-! ## Claims C8 and C3: persistence -/

theorem strListOfJsonList_map (l : List String) :
    strListOfJsonList (l.map Json.str) = some l := by
  induction l with
  | nil => rfl
  | cons s rest ih => simp [strListOfJsonList, ih]

theorem notebookOfJson_obj (id url name description : String)
    (tp ct us tg : List Json) (created_at updated_at : String) (n : Int)
    (lu : Json) :
    notebookOfJson (.obj [("id", .str id), ("url", .str url), ("name", .str name),
      ("description", .str description), ("topics", .arr tp),
      ("content_types", .arr ct), ("use_cases", .arr us), ("tags", .arr tg),
      ("created_at", .str created_at), ("updated_at", .str updated_at),
      ("use_count", .num n), ("last_used", lu)]) = (do
    let topics ← strListOfJsonList tp
    let content_types ← strListOfJsonList ct
    let use_cases ← strListOfJsonList us
    let tags ← strListOfJsonList tg
    let use_count ← n.toNat'
    let last_used ← (match lu with
      | .null => some none
      | .str s => some (some s)
      | _ => none)
    pure { id, url, name, description, topics, content_types, use_cases, tags,
           created_at, updated_at, use_count, last_used }) := rfl

theorem notebookOfJson_notebookJson (nb : Notebook) :
    notebookOfJson (notebookJson nb) = some nb := by
  obtain ⟨id, url, name, d, tp, ct, uc, tg, ca, ua, n, lu⟩ := nb
  rw [notebookJson, notebookOfJson_obj]
  cases lu <;> simp [strListOfJsonList_map, Int.toNat']

theorem notebooksOfJson_map (m : NotebookMap) :
    notebooksOfJson (m.map (fun p => (p.1, notebookJson p.2))) = some m := by
  induction m with
  | nil => rfl
  | cons p rest ih => simp [notebooksOfJson, notebookOfJson_notebookJson, ih]

/-- C8: writing the snapshot `_save_library` builds and reading it back
through `_load_library` reproduces exactly the same records (keys, field
values and order) and the same `active_notebook_id`. -/
theorem C8_save_load_roundtrip (st : LibState) (now : String) :
    NotebookLibrary.load_library (some (libraryJson st now)) = some st := by
  obtain ⟨m, act⟩ := st
  simp only [NotebookLibrary.load_library, NotebookLibrary.stateOfJson, libraryJson,
    Json.get]
  cases act <;> simp [notebooksOfJson_map, List.find?]

/-- C3 counterexample: a failing snapshot write is caught inside
`_save_library`, an error line is printed, and the call returns normally
— the caller observes no typed failure (the result is `.ok`, not
`.error`). -/
theorem C3_counterexample :
    NotebookLibrary.save_library ⟨[], none⟩ "2024-01-01T00:00:00" (some "disk full") =
      .ok (none, ["❌ Error saving library: disk full"]) := rfl

/-- C3 (amended): a persistence-write failure is caught by
`_save_library`, which reports it only by printing `❌ Error saving
library: ...` and returns normally, writing no snapshot — the caller
observes success; a persistence-read failure falls back to the empty
library instead of failing. -/
theorem C3_amended_persistence (st : LibState) (now e : String) :
    NotebookLibrary.save_library st now (some e) =
      .ok (none, ["❌ Error saving library: " ++ e]) ∧
    NotebookLibrary.load_library none = some ⟨[], none⟩ :=
  ⟨rfl, rfl⟩

/-- Witness for C9: two increments on a concrete fresh record. -/
theorem C9_witness :
    ∃ st2 nb2, incrementN
      ⟨[("x", ⟨"x", "u", "X", "d", [], [], [], [], "t", "t", 0, none⟩)], some "x"⟩
      "x" ["t1", "t2"] = .ok st2 ∧
      dictGet st2.notebooks "x" = some nb2 ∧
      nb2.use_count = (["t1", "t2"] : List String).length ∧
      nb2.last_used = (["t1", "t2"] : List String).getLast? :=
  (C9_increment_counts
    ⟨[("x", ⟨"x", "u", "X", "d", [], [], [], [], "t", "t", 0, none⟩)], some "x"⟩
    "x" ⟨"x", "u", "X", "d", [], [], [], [], "t", "t", 0, none⟩ rfl rfl).2
    ["t1", "t2"] (by decide)

end NotebookLM
